import Mathlib

/- Verification of the process-discovery protocol and telemetry
synchronization engine of vscode-antigravity-cockpit.

The definitions below are a shallow embedding of the TypeScript sources:
  * `src/engine/reactor.ts` (ReactorCore: transmit, fetchLocalTelemetry,
    syncTelemetryCore, reprocess, initWithRetry, startReactor,
    buildSnapshot's grouping phase, calculateGroupMappings,
    groupBasedOnSeries),
  * `src/engine/hunter.ts` (ProcessHunter.verifyAndConnect,
    verifyConnection),
  * `src/engine/strategies.ts` (WindowsStrategy.parse_process_info,
    UnixStrategy.parse_process_info, parse_listening_ports),
  * `src/controller/telemetry_controller.ts` (the onMalfunction handler).

JavaScript `Map`s and plain string-keyed objects are embedded as
insertion-ordered association lists, JS numbers used as quota fractions as
rationals, epoch-millisecond dates as integers, and the asynchronous
init-retry chain as an explicit small-step machine whose events are the
suspension points of the original async code. -/

/-- Lookup in an insertion-ordered association list; embeds `map.get(key)` /
`obj[key]` (first matching key wins; JS keys are unique so this agrees). -/
def alistGet {K V : Type} [DecidableEq K] : List (K × V) → K → Option V
  | [], _ => none
  | (k, v) :: rest, key => if k = key then some v else alistGet rest key

/-- Embeds `map.set(key, val)` / `obj[key] = val`: replace the value of an
existing key in place, otherwise append a new entry at the end (JS `Map`s and
objects preserve insertion order). -/
def alistSet {K V : Type} [DecidableEq K] : List (K × V) → K → V → List (K × V)
  | [], key, val => [(key, val)]
  | (k, v) :: rest, key, val =>
      if k = key then (k, val) :: rest else (k, v) :: alistSet rest key val

/-- Embeds `map.delete(key)` / `delete obj[key]`. -/
def alistRemove {K V : Type} [DecidableEq K] : List (K × V) → K → List (K × V)
  | [], _ => []
  | (k, v) :: rest, key =>
      if k = key then rest else (k, v) :: alistRemove rest key

/-- Embeds the `if (!map.has(k)) map.set(k, []); map.get(k)!.push(v)` idiom:
append `v` to the bucket of `k`, creating the bucket at the end if absent. -/
def alistPush {K V : Type} [DecidableEq K] : List (K × List V) → K → V → List (K × List V)
  | [], key, v => [(key, [v])]
  | (k, vs) :: rest, key, v =>
      if k = key then (k, vs ++ [v]) :: rest else (k, vs) :: alistPush rest key v

/-- Stable insertion into a list sorted by the boolean comparison `le`;
ties keep the inserted element (which originated earlier) first, matching the
stability of JS `Array.prototype.sort`. -/
def insertLe {A : Type} (le : A → A → Bool) (x : A) : List A → List A
  | [] => [x]
  | y :: ys => if le x y then x :: y :: ys else y :: insertLe le x ys

/-- Stable sort by the boolean comparison `le`; embeds JS
`Array.prototype.sort` with a total comparator. -/
def sortByLe {A : Type} (le : A → A → Bool) : List A → List A
  | [] => []
  | x :: xs => insertLe le x (sortByLe le xs)

/-- Lexicographic code-unit comparison of character lists, the comparison
behind the default JS `Array.prototype.sort` on strings. -/
def charListLe : List Char → List Char → Bool
  | [], _ => true
  | _ :: _, [] => false
  | a :: as, b :: bs =>
      if a.toNat < b.toNat then true
      else if b.toNat < a.toNat then false
      else charListLe as bs

/-- Code-unit string comparison (agrees with JS string ordering on the
ASCII identifiers in play). -/
def stringLe (a b : String) : Bool := charListLe a.data b.data

/-- Sorting of string lists with JS's default lexicographic `.sort()`. -/
def sortStrings (l : List String) : List String :=
  sortByLe stringLe l

/-- Model quota record (`ModelQuotaInfo`, src/shared/types.ts lines 12-27),
restricted to the fields the verified code paths read; derived display
strings and capability flags not consulted by any claim are omitted. -/
structure ModelQuotaInfo where
  label : String
  modelId : String
  remainingFraction : Option ℚ
  remainingPercentage : Option ℚ
  isExhausted : Bool
  resetTime : ℤ
  resetTimeValid : Bool
deriving DecidableEq, Repr, Inhabited

/-- Quantisation performed by `fraction.toFixed(6)` in the grouping code:
the remaining fraction rounded half-up to six decimal digits and scaled to
an integer, so that two fractions compare equal exactly when their
`toFixed(6)` strings do (for the in-range fractions the engine handles).
Written on the numerator/denominator representation — it equals
`⌊q * 1000000 + 1 / 2⌋`, since `q * 10^6 + 1/2 = (2·10^6·num + den)/(2·den)`
and `Int.fdiv` is floor division. -/
def quant6 (q : ℚ) : ℤ := Int.fdiv (2000000 * q.num + (q.den : ℤ)) (2 * (q.den : ℤ))

/-- Quota signature used by buildSnapshot's majority vote
(reactor.ts lines 846-848): `(fraction ?? 0).toFixed(6)` paired with the
exact reset timestamp in epoch milliseconds. -/
def quotaSignature (m : ModelQuotaInfo) : ℤ × ℤ :=
  (quant6 (m.remainingFraction.getD 0), m.resetTime)

/-- Fingerprint used by `calculateGroupMappings` (reactor.ts line 1041):
`model.remainingFraction?.toFixed(6)` (no `?? 0` default here — an absent
fraction keeps its own `undefined` key) paired with the reset timestamp. -/
def quotaFingerprint (m : ModelQuotaInfo) : Option ℤ × ℤ :=
  (m.remainingFraction.map quant6, m.resetTime)

/-- Phase 1 of buildSnapshot's grouping (reactor.ts lines 823-834): each
model joins the bucket of its saved group id; a model with no saved mapping
(or, by JS truthiness, an empty-string one) becomes its own singleton entry
keyed by its model id. -/
def assignSavedGroups (saved : List (String × String)) :
    List ModelQuotaInfo → List (String × List ModelQuotaInfo) →
    List (String × List ModelQuotaInfo)
  | [], acc => acc
  | m :: rest, acc =>
      match alistGet saved m.modelId with
      | some gid =>
          if gid = "" then assignSavedGroups saved rest (alistSet acc m.modelId [m])
          else assignSavedGroups saved rest (alistPush acc gid m)
      | none => assignSavedGroups saved rest (alistSet acc m.modelId [m])

/-- Signature tally of one group's members (reactor.ts lines 843-854). -/
def countSignatures : List ModelQuotaInfo → List ((ℤ × ℤ) × ℕ) → List ((ℤ × ℤ) × ℕ)
  | [], acc => acc
  | m :: rest, acc =>
      let sig := quotaSignature m
      match alistGet acc sig with
      | some c => countSignatures rest (alistSet acc sig (c + 1))
      | none => countSignatures rest (alistSet acc sig 1)

/-- Majority scan (reactor.ts lines 856-863): first signature reaching the
strictly largest count wins (`data.count > maxCount`). -/
def majorityScan : List ((ℤ × ℤ) × ℕ) → Option (ℤ × ℤ) → ℕ → Option (ℤ × ℤ)
  | [], best, _ => best
  | (sig, c) :: rest, best, bestCount =>
      if bestCount < c then majorityScan rest (some sig) c
      else majorityScan rest best bestCount

/-- Majority signature of a bucket of members. -/
def majoritySignature (ms : List ModelQuotaInfo) : Option (ℤ × ℤ) :=
  majorityScan (countSignatures ms []) none 0

/-- Model ids marked for eviction (reactor.ts lines 836-875): in every
bucket with more than one member, every member whose signature differs from
the majority signature is collected, in map order. -/
def groupRemovals : List (String × List ModelQuotaInfo) → List String
  | [] => []
  | (_, ms) :: rest =>
      if ms.length ≤ 1 then groupRemovals rest
      else
        ((ms.filter (fun m => some (quotaSignature m) ≠ majoritySignature ms)).map
          (fun m => m.modelId)) ++ groupRemovals rest

/-- Removal of the first member with a given model id from a member list,
mirroring `findIndex` + `splice` (reactor.ts lines 889-891). -/
def extractModel (modelId : String) :
    List ModelQuotaInfo → Option (ModelQuotaInfo × List ModelQuotaInfo)
  | [] => none
  | m :: rest =>
      if m.modelId = modelId then some (m, rest)
      else
        match extractModel modelId rest with
        | some (x, rest2) => some (x, m :: rest2)
        | none => none

/-- Search of the whole group map for the first bucket containing the id and
removal of that member (the inner `for`/`break` of reactor.ts lines 887-896). -/
def spliceModel (modelId : String) :
    List (String × List ModelQuotaInfo) →
    Option ModelQuotaInfo × List (String × List ModelQuotaInfo)
  | [] => (none, [])
  | (gid, ms) :: rest =>
      match extractModel modelId ms with
      | some (x, ms2) => (some x, (gid, ms2) :: rest)
      | none =>
          match spliceModel modelId rest with
          | (r, rest2) => (r, (gid, ms) :: rest2)

/-- Eviction of one model id: splice it out of its bucket, then
`groupMap.set(modelId, [removedModel])` (reactor.ts lines 887-896). -/
def evictOne (modelId : String) (gm : List (String × List ModelQuotaInfo)) :
    List (String × List ModelQuotaInfo) :=
  match spliceModel modelId gm with
  | (some x, gm2) => alistSet gm2 modelId [x]
  | (none, gm2) => gm2

/-- Eviction of every removed id in order (reactor.ts lines 887-896). -/
def evictAll (gm : List (String × List ModelQuotaInfo)) (ids : List String) :
    List (String × List ModelQuotaInfo) :=
  ids.foldl (fun g id => evictOne id g) gm

/-- Cleanup of emptied buckets (reactor.ts lines 898-902). -/
def dropEmptyGroups (gm : List (String × List ModelQuotaInfo)) :
    List (String × List ModelQuotaInfo) :=
  gm.filter (fun p => ¬ p.2.isEmpty)

/-- Result of the grouping phase: the bucket map and, when evictions
happened, the corrected mapping handed to the (fire-and-forget)
`configService.updateGroupMappings` call. -/
structure GroupResolution where
  groupMap : List (String × List ModelQuotaInfo)
  updatedMappings : Option (List (String × String))
deriving DecidableEq, Repr

/-- Grouping phase of `ReactorCore.buildSnapshot` (reactor.ts lines
818-910): resolve saved mappings, run the majority-vote consistency check,
evict mismatching members into their own singleton buckets and drop the
evicted ids from the persisted mapping. With no saved mappings every model
becomes its own singleton bucket (lines 906-910). -/
def resolveGroups (saved : List (String × String)) (models : List ModelQuotaInfo) :
    GroupResolution :=
  if saved.isEmpty then
    { groupMap := models.foldl (fun acc m => alistSet acc m.modelId [m]) []
      updatedMappings := none }
  else
    let gm := assignSavedGroups saved models []
    let removals := groupRemovals gm
    if removals.isEmpty then { groupMap := gm, updatedMappings := none }
    else
      { groupMap := dropEmptyGroups (evictAll gm removals)
        updatedMappings := some (removals.foldl (fun acc id => alistRemove acc id) saved) }

/-- Bucketing of models by quota fingerprint (`statsMap`, reactor.ts lines
1039-1046), insertion-ordered. -/
def fingerprintBuckets :
    List ModelQuotaInfo → List ((Option ℤ × ℤ) × List String) →
    List ((Option ℤ × ℤ) × List String)
  | [], acc => acc
  | m :: rest, acc => fingerprintBuckets rest (alistPush acc (quotaFingerprint m) m.modelId)

/-- Stable group id for a bucket: the member ids sorted lexicographically
and joined with underscores (`modelIds.sort().join('_')`, reactor.ts lines
1055 and 1100). -/
def stableGroupId (ids : List String) : String :=
  String.intercalate "_" (sortStrings ids)

/-- Curated model-family table of `groupBasedOnSeries` (reactor.ts lines
1069-1078). -/
def geminiIds : List String := ["MODEL_PLACEHOLDER_M8", "MODEL_PLACEHOLDER_M7"]

/-- Gemini Flash bucket of the curated table. -/
def geminiFlashIds : List String := ["MODEL_PLACEHOLDER_M18"]

/-- Claude / GPT bucket of the curated table. -/
def claudeGptIds : List String :=
  ["MODEL_CLAUDE_4_5_SONNET", "MODEL_CLAUDE_4_5_SONNET_THINKING",
   "MODEL_PLACEHOLDER_M12", "MODEL_OPENAI_GPT_OSS_120B_MEDIUM"]

/-- Family classification of one model id (reactor.ts lines 1080-1090):
first matching bucket wins, everything unmatched lands in `Other`. -/
def seriesName (id : String) : String :=
  if geminiIds.contains id then "Gemini"
  else if geminiFlashIds.contains id then "Gemini Flash"
  else if claudeGptIds.contains id then "Claude"
  else "Other"

/-- Conversion of an insertion-ordered bucket list to a flat id-to-group-id
mapping (shared tail of reactor.ts lines 1053-1061 and 1098-1105). -/
def bucketsToMappings {K : Type} (buckets : List (K × List String)) :
    List (String × String) :=
  buckets.foldl (fun acc bucket =>
    let gid := stableGroupId bucket.2
    bucket.2.foldl (fun a id => alistSet a id gid) acc) []

/-- `ReactorCore.groupBasedOnSeries` (reactor.ts lines 1066-1106): group each
model by its curated family name, then map every id to its bucket's stable
group id. -/
def groupBasedOnSeries (models : List ModelQuotaInfo) : List (String × String) :=
  bucketsToMappings
    (models.foldl (fun acc m => alistPush acc (seriesName m.modelId) m.modelId) [])

/-- `ReactorCore.calculateGroupMappings` (reactor.ts lines 1038-1062): bucket
models by quota fingerprint; when every model falls into one bucket and
there is more than one model, fall back to the curated family grouping,
otherwise map each id to its fingerprint bucket's stable group id. -/
def calculateGroupMappings (models : List ModelQuotaInfo) : List (String × String) :=
  let statsMap := fingerprintBuckets models []
  if statsMap.length = 1 ∧ 1 < models.length then groupBasedOnSeries models
  else bucketsToMappings statsMap

/-- Quota payload of one server-side model config (`quotaInfo`); an
unparseable reset timestamp (`new Date(...)` giving `NaN`) is `none`. -/
structure QuotaInfoRaw where
  remainingFraction : Option ℚ
  resetTimeMs : Option ℤ
deriving DecidableEq, Repr

/-- One entry of `clientModelConfigs` restricted to the fields
`decodeSignal` reads (`label`, `modelOrAlias?.model`, `quotaInfo`). -/
structure ClientModelConfigRaw where
  label : String
  model : Option String
  quotaInfo : Option QuotaInfoRaw
deriving DecidableEq, Repr

/-- The `userStatus` object restricted to what `decodeSignal` reads for the
model list: the configs and the flattened label order of
`clientModelSorts[0]` (plan/credits/user-profile marshalling feeds only
display fields no claim mentions and is omitted). -/
structure UserStatusRaw where
  clientModelConfigs : List ClientModelConfigRaw
  sortLabels : List String
deriving DecidableEq, Repr

/-- `ServerUserStatusResponse`: the decoded JSON body of a telemetry
response; `message` is the server-reported error text. -/
structure ServerUserStatusResponse where
  userStatus : Option UserStatusRaw
  message : Option String
deriving DecidableEq, Repr

/-- Errors raised along the sync path, one constructor per distinct `Error`
the source constructs, tagged with the payload its message interpolates. -/
inductive SyncError
  | notReady
  | emptyBody
  | notFound (endpoint : String)
  | parseFailed
  | connectionFailed (detail : String)
  | timedOut
  | serverReported (msg : String)
  | invalidResponse
  | notReadyAfterRetries
deriving DecidableEq, Repr

/-- Message text of each error, as interpolated by the source. -/
def syncErrorMessage : SyncError → String
  | .notReady => "Antigravity Error: System not ready (Reactor not engaged)"
  | .emptyBody => "Signal Corrupted: Empty response from server"
  | .notFound endpoint => "Not Found: " ++ endpoint
  | .parseFailed => "Signal Corrupted: unexpected token in JSON"
  | .connectionFailed detail => "Connection Failed: " ++ detail
  | .timedOut => "Signal Lost: Request timed out"
  | .serverReported msg => "Server error: " ++ msg
  | .invalidResponse => "Invalid response from server"
  | .notReadyAfterRetries => "Language server not ready after retries"

/-- Test `err instanceof AntigravityError` (src/shared/errors.ts): the
source wraps exactly the not-engaged guard, the request timeout and the
server-reported decode error in `AntigravityError`. -/
def isServerError : SyncError → Bool
  | .notReady => true
  | .timedOut => true
  | .serverReported _ => true
  | _ => false

/-- Test `/Not Found:/i.test(err.message)` (reactor.ts line 501): of the
messages above only the `Not Found: <endpoint>` rejection matches. -/
def isNotFoundError : SyncError → Bool
  | .notFound _ => true
  | _ => false

/-- Character-level test whether the second list occurs as a prefix of the
first argument list. -/
def startsWithChars : List Char → List Char → Bool
  | [], _ => true
  | _ :: _, [] => false
  | a :: as, b :: bs => a == b && startsWithChars as bs

/-- Character-level substring occurrence test. -/
def hasSubChars (pat : List Char) : List Char → Bool
  | [] => pat.isEmpty
  | c :: rest => startsWithChars pat (c :: rest) || hasSubChars pat rest

/-- Substring test (`message.includes(...)` / a literal regex test) used for
warmup detection and for the malfunction handler's message sniffing. -/
def containsStr (s pat : String) : Bool := hasSubChars pat.data s.data

/-- Test `isLanguageServerNotReady` (reactor.ts lines 528-530): matches the
server-reported message text verbatim. -/
def isLangServerNotReady : SyncError → Bool
  | .serverReported msg => containsStr msg "LanguageServerClient must be initialized first"
  | _ => false

/-- Display-layer configuration consumed by `buildSnapshot`
(`configService.getConfig()`), restricted to the fields it reads. -/
structure CockpitConfig where
  visibleModels : List String
  groupingEnabled : Bool
  groupMappings : List (String × String)
  groupingCustomNames : List (String × String)
deriving DecidableEq, Repr

/-- Quota group record (`QuotaGroup`, src/shared/types.ts lines 29-38);
display strings derived from `firstModel` are represented by its reset
timestamp. -/
structure QuotaGroup where
  groupId : String
  groupName : String
  models : List ModelQuotaInfo
  remainingPercentage : ℚ
  resetTime : ℤ
  isExhausted : Bool
deriving DecidableEq, Repr

/-- Custom-name votes of a group's members (reactor.ts lines 919-925);
falsy (empty) custom names cast no vote. -/
def nameVotesFor (customNames : List (String × String)) (ms : List ModelQuotaInfo) :
    List (String × ℕ) :=
  ms.foldl (fun acc m =>
    match alistGet customNames m.modelId with
    | some name =>
        if name = "" then acc
        else
          match alistGet acc name with
          | some c => alistSet acc name (c + 1)
          | none => alistSet acc name 1
    | none => acc) []

/-- Winning custom name (reactor.ts lines 927-935): first name reaching the
strictly largest vote count; the empty string when nobody voted. -/
def nameScan : List (String × ℕ) → String → ℕ → String
  | [], best, _ => best
  | (n, v) :: rest, best, bestVotes =>
      if bestVotes < v then nameScan rest n v else nameScan rest best bestVotes

/-- Minimum of the members' remaining percentages, absent percentages
counting as 0 (`Math.min(...groupModels.map(m => m.remainingPercentage ?? 0))`,
reactor.ts line 946); groups are never empty at this point. -/
def minPercentage : List ModelQuotaInfo → ℚ
  | [] => 0
  | m :: rest =>
      rest.foldl (fun acc x => min acc (x.remainingPercentage.getD 0))
        (m.remainingPercentage.getD 0)

/-- Group-record assembly (reactor.ts lines 912-960): name from the custom
name vote, else the single member's label, else `Group <i>` with a running
1-based index; aggregate percentage is the members' minimum; exhausted when
any member is. -/
def buildGroupRecords (customNames : List (String × String)) :
    List (String × List ModelQuotaInfo) → ℕ → List QuotaGroup
  | [], _ => []
  | (gid, ms) :: rest, groupIndex =>
      let voted := nameScan (nameVotesFor customNames ms) "" 0
      let name :=
        if voted = "" then
          match ms with
          | [m] => m.label
          | _ => "Group " ++ toString groupIndex
        else voted
      { groupId := gid
        groupName := name
        models := ms
        remainingPercentage := minPercentage ms
        resetTime := (ms.headD default).resetTime
        isExhausted := ms.any (fun m => m.isExhausted) } ::
        buildGroupRecords customNames rest (groupIndex + 1)

/-- Position of each shown model id (`modelIndexMap`, reactor.ts lines
962-963). -/
def buildModelIndex (models : List ModelQuotaInfo) : List (String × ℕ) :=
  models.enum.foldl (fun acc p => alistSet acc p.2.modelId p.1) []

/-- Smallest shown-model index among a group's members, unknown ids counting
as 99999 (reactor.ts lines 965-968). -/
def minIndexOf (idx : List (String × ℕ)) : List ModelQuotaInfo → ℕ
  | [] => 99999
  | m :: rest =>
      rest.foldl (fun acc x => min acc ((alistGet idx x.modelId).getD 99999))
        ((alistGet idx m.modelId).getD 99999)

/-- Normalized snapshot (`QuotaSnapshot`, src/shared/types.ts lines 40-51),
restricted to the fields the engine computes from a decoded response. -/
structure QuotaSnapshot where
  models : List ModelQuotaInfo
  allModels : List ModelQuotaInfo
  groups : Option (List QuotaGroup)
  isConnected : Bool
deriving DecidableEq, Repr

/-- Return value of `buildSnapshot` together with the corrected group
mappings its eviction phase hands to the asynchronous
`configService.updateGroupMappings` call (fire-and-forget; a persistence
failure is only logged, reactor.ts lines 883-885). -/
structure BuiltSnapshot where
  snapshot : QuotaSnapshot
  updatedMappings : Option (List (String × String))
deriving DecidableEq, Repr

/-- `ReactorCore.buildSnapshot` (reactor.ts lines 794-983): apply the
visible-model filter (fail-open when it would empty a non-empty list), then,
with grouping enabled, resolve groups, build the group records and sort them
by their smallest shown-model index (stable). -/
def buildSnapshot (cfg : CockpitConfig) (models : List ModelQuotaInfo) : BuiltSnapshot :=
  let allModels := models
  let shown :=
    if cfg.visibleModels.isEmpty then models
    else
      let filtered := models.filter (fun m => cfg.visibleModels.contains m.modelId)
      if filtered.isEmpty ∧ ¬ models.isEmpty then models else filtered
  if cfg.groupingEnabled then
    let res := resolveGroups cfg.groupMappings shown
    let idx := buildModelIndex shown
    let groups :=
      sortByLe (fun a b => decide (minIndexOf idx a.models ≤ minIndexOf idx b.models))
        (buildGroupRecords cfg.groupingCustomNames res.groupMap 1)
    { snapshot := { models := shown, allModels := allModels, groups := some groups, isConnected := true }
      updatedMappings := res.updatedMappings }
  else
    { snapshot := { models := shown, allModels := allModels, groups := none, isConnected := true }
      updatedMappings := none }

/-- Model extraction of `decodeSignal` (reactor.ts lines 740-773): configs
without quota info are dropped; an unparseable reset time is replaced by
`now + 24h` and flagged invalid; a missing model id becomes `unknown`. -/
def decodeModels (now : ℤ) : List ClientModelConfigRaw → List ModelQuotaInfo
  | [] => []
  | c :: rest =>
      match c.quotaInfo with
      | none => decodeModels now rest
      | some qi =>
          { label := c.label
            modelId := c.model.getD "unknown"
            remainingFraction := qi.remainingFraction
            remainingPercentage := qi.remainingFraction.map (fun f => f * 100)
            isExhausted := decide (qi.remainingFraction = some 0)
            resetTime := qi.resetTimeMs.getD (now + 86400000)
            resetTimeValid := qi.resetTimeMs.isSome } :: decodeModels now rest

/-- Label order of `clientModelSorts[0]` flattened into a map
(reactor.ts lines 729-738); a repeated label keeps its later, larger index. -/
def buildSortOrder : List String → ℕ → List (String × ℕ) → List (String × ℕ)
  | [], _, acc => acc
  | l :: rest, i, acc => buildSortOrder rest (i + 1) (alistSet acc l i)

/-- Label comparison standing for `a.label.localeCompare(b.label)`,
approximated by code-unit order (exact for the ASCII labels in play). -/
def localeCmp (a b : String) : ℤ :=
  match compare a b with
  | .lt => -1
  | .eq => 0
  | .gt => 1

/-- Model sort comparator (reactor.ts lines 775-789): ranked labels first in
rank order, unranked ones after, alphabetically. -/
def modelCmp (ord : List (String × ℕ)) (a b : ModelQuotaInfo) : ℤ :=
  match alistGet ord a.label, alistGet ord b.label with
  | some i, some j => (i : ℤ) - j
  | some _, none => -1
  | none, some _ => 1
  | none, none => localeCmp a.label b.label

/-- Stable model sort under the comparator above. -/
def sortModels (sortLabels : List String) (ms : List ModelQuotaInfo) : List ModelQuotaInfo :=
  sortByLe (fun a b => decide (modelCmp (buildSortOrder sortLabels 0 []) a b ≤ 0)) ms

/-- `ReactorCore.decodeSignal` (reactor.ts lines 655-792): a response with no
`userStatus` raises the server's own message verbatim when present and a
generic invalid-response error otherwise; otherwise the model list is
extracted, sorted and assembled into a snapshot. -/
def decodeSignal (cfg : CockpitConfig) (now : ℤ) (data : ServerUserStatusResponse) :
    Except SyncError BuiltSnapshot :=
  match data.userStatus with
  | none =>
      match data.message with
      | some m => Except.error (SyncError.serverReported m)
      | none => Except.error SyncError.invalidResponse
  | some status =>
      Except.ok
        (buildSnapshot cfg (sortModels status.sortLabels (decodeModels now status.clientModelConfigs)))

/-- Endpoint path constants (src/shared/constants.ts lines 24-28). -/
def GET_USER_STATUS : String := "/exa.language_server_pb.LanguageServerService/GetUserStatus"

/-- Fallback (seat-management) user-status endpoint path. -/
def GET_USER_STATUS_SEAT : String := "/exa.seat_management_pb.SeatManagementService/GetUserStatus"

/-- Warm-up endpoint path used by `warmupLanguageServer`. -/
def GET_UNLEASH_DATA : String := "/exa.language_server_pb.LanguageServerService/GetUnleashData"

/-- Body of an HTTP response, quotiented to the classes `transmit`
distinguishes: empty, the literal `404 page not found` text, a JSON body
that parses to a status response, or non-empty unparseable text. -/
inductive HttpBody
  | empty
  | notFoundText
  | jsonBody (raw : ServerUserStatusResponse)
  | garbled
deriving DecidableEq, Repr

/-- Outcome of one HTTPS request as observed by `transmit`'s callbacks: a
response with status code and body, a socket error (with the system message
`transmit` interpolates), or a timeout. -/
inductive NetResponse
  | http (status : ℕ) (body : HttpBody)
  | connError (detail : String)
  | timeout
deriving DecidableEq, Repr

/-- Engine-owned mutable state of `ReactorCore` relevant to the sync path
(reactor.ts lines 26-40). -/
structure EngineState where
  port : ℕ
  lastRawResponse : Option ServerUserStatusResponse
  lastSnapshot : Option QuotaSnapshot
  hasSuccessfulSync : Bool
deriving DecidableEq, Repr

/-- `ReactorCore.transmit` (reactor.ts lines 177-248). The environment `env`
maps the index of the request (the number of requests issued so far, which
equals the length of the request log) to the network's answer; the log
records the endpoint of every request actually issued. An unengaged reactor
(`port = 0`) rejects with the typed not-ready error before any request is
issued. On a response, an empty body is checked first, then the 404 status /
`404 page not found` body signature, then JSON parsing. -/
def transmit (port : ℕ) (env : ℕ → NetResponse) (log : List String) (endpoint : String) :
    Except SyncError ServerUserStatusResponse × List String :=
  if port = 0 then (Except.error SyncError.notReady, log)
  else
    let log1 := log ++ [endpoint]
    match env log.length with
    | NetResponse.connError detail => (Except.error (SyncError.connectionFailed detail), log1)
    | NetResponse.timeout => (Except.error SyncError.timedOut, log1)
    | NetResponse.http status body =>
        if body = HttpBody.empty then (Except.error SyncError.emptyBody, log1)
        else if status = 404 ∨ body = HttpBody.notFoundText then
          (Except.error (SyncError.notFound endpoint), log1)
        else
          match body with
          | HttpBody.jsonBody raw => (Except.ok raw, log1)
          | _ => (Except.error SyncError.parseFailed, log1)

/-- `ReactorCore.warmupLanguageServer` (reactor.ts lines 532-562): one
throwaway request to the warm-up endpoint whose response is ignored; skipped
entirely when the reactor is not engaged. -/
def warmup (port : ℕ) (log : List String) : List String :=
  if port = 0 then log else log ++ [GET_UNLEASH_DATA]

/-- `ReactorCore.fetchLocalTelemetry` (reactor.ts lines 480-526), fuelled by
the number of remaining attempts (`maxAttempts = 4`). Each attempt posts to
the primary user-status endpoint; a `Not Found:` rejection (and only that)
is retried once against the seat-management fallback within the same
attempt. A raw response is cached in `lastRawResponse` before decoding. A
decode failure matching the language-server-not-ready signature triggers a
warm-up request and another attempt (with an increasing delay, irrelevant
here); any other decode failure, or exhaustion of the attempt budget,
propagates. The `fuel = 0` case is the unreachable post-loop throw. -/
def fetchLocalTelemetry (cfg : CockpitConfig) (now : ℤ) (env : ℕ → NetResponse) :
    ℕ → EngineState → List String →
    Except SyncError BuiltSnapshot × EngineState × List String
  | 0, st, log => (Except.error SyncError.notReadyAfterRetries, st, log)
  | fuel + 1, st, log =>
      let first := transmit st.port env log GET_USER_STATUS
      let second :=
        match first with
        | (Except.ok raw, log1) => (Except.ok raw, log1)
        | (Except.error e, log1) =>
            if isNotFoundError e then transmit st.port env log1 GET_USER_STATUS_SEAT
            else (Except.error e, log1)
      match second with
      | (Except.error e, log2) => (Except.error e, st, log2)
      | (Except.ok raw, log2) =>
          let st1 := { st with lastRawResponse := some raw }
          match decodeSignal cfg now raw with
          | Except.ok built => (Except.ok built, st1, log2)
          | Except.error e =>
              if isLangServerNotReady e = false ∨ fuel = 0 then (Except.error e, st1, log2)
              else fetchLocalTelemetry cfg now env fuel st1 (warmup st1.port log2)

/-- Observable outcome of one engine operation: the propagated result, the
engine state afterwards, the endpoints of the requests issued, and the
snapshots handed to the telemetry update handler, in order. -/
structure SyncOutcome where
  thrownError : Option SyncError
  state : EngineState
  requests : List String
  published : List QuotaSnapshot
deriving DecidableEq, Repr

/-- `ReactorCore.publishTelemetry` (reactor.ts lines 579-600): cache the
snapshot, set the has-successful-sync flag and invoke the update handler. -/
def publishTelemetry (st : EngineState) (snap : QuotaSnapshot) : EngineState :=
  { st with lastSnapshot := some snap, hasSuccessfulSync := true }

/-- `ReactorCore.syncTelemetryCore` (reactor.ts lines 468-478): fetch,
then publish; the external quota-cache write between the two does not touch
engine state. Errors are tagged `source = local` and propagated. -/
def syncTelemetryCore (cfg : CockpitConfig) (now : ℤ) (env : ℕ → NetResponse)
    (st : EngineState) : SyncOutcome :=
  match fetchLocalTelemetry cfg now env 4 st [] with
  | (Except.ok built, st1, log) =>
      { thrownError := none
        state := publishTelemetry st1 built.snapshot
        requests := log
        published := [built.snapshot] }
  | (Except.error e, st1, log) =>
      { thrownError := some e, state := st1, requests := log, published := [] }

/-- `ReactorCore.reprocess` (reactor.ts lines 604-620): with a cached raw
response and a registered update handler, re-decode and republish from the
cache; otherwise, with a cached snapshot and a handler, hand the cached
snapshot to the handler again; otherwise fall through to a real sync
(`syncTelemetry`, whose catch forwards the error to the malfunction
handler). A decode failure in the first branch escapes `reprocess` uncaught
and publishes nothing. -/
def reprocess (cfg : CockpitConfig) (now : ℤ) (env : ℕ → NetResponse)
    (hasHandler : Bool) (st : EngineState) : SyncOutcome :=
  match st.lastRawResponse, hasHandler with
  | some raw, true =>
      (match decodeSignal cfg now raw with
       | Except.ok built =>
           { thrownError := none
             state := publishTelemetry st built.snapshot
             requests := []
             published := [built.snapshot] }
       | Except.error e =>
           { thrownError := some e, state := st, requests := [], published := [] })
  | _, _ =>
      match st.lastSnapshot, hasHandler with
      | some snap, true =>
          { thrownError := none, state := st, requests := [], published := [snap] }
      | _, _ => syncTelemetryCore cfg now env st

/-- Backoff delay before retry number `currentRetry + 1` of the init sync
(`2000 * (currentRetry + 1)`, reactor.ts line 384 — the source's own comment
reads `2s, 4s, 6s`). -/
def initRetryDelayMs (currentRetry : ℕ) : ℕ := 2000 * (currentRetry + 1)

/-- Observable trace of one uninterrupted run of `initWithRetry`: how many
sync attempts ran, which delays were awaited between them, whether the final
failure was handed to the malfunction handler, and whether a sync
succeeded. -/
structure InitRetryTrace where
  syncAttempts : ℕ
  delays : List ℕ
  escalated : Bool
  succeeded : Bool
deriving DecidableEq, Repr

/-- `ReactorCore.initWithRetry` (reactor.ts lines 359-404) run sequentially
(no concurrent restart, so the generation checks all pass), recursing on the
remaining retry budget: attempt the sync; on failure with budget left, await
the linear backoff delay and retry; with the budget exhausted, hand the
error to the malfunction handler. `failsAt k` tells whether the attempt at
`currentRetry = k` fails. -/
def initRetryRun (failsAt : ℕ → Bool) : ℕ → ℕ → InitRetryTrace
  | currentRetry, 0 =>
      if failsAt currentRetry then
        { syncAttempts := 1, delays := [], escalated := true, succeeded := false }
      else
        { syncAttempts := 1, delays := [], escalated := false, succeeded := true }
  | currentRetry, remaining + 1 =>
      if failsAt currentRetry then
        let rest := initRetryRun failsAt (currentRetry + 1) remaining
        { syncAttempts := rest.syncAttempts + 1
          delays := initRetryDelayMs currentRetry :: rest.delays
          escalated := rest.escalated
          succeeded := rest.succeeded }
      else
        { syncAttempts := 1, delays := [], escalated := false, succeeded := true }

/-- `initWithRetry` entered as by `startReactor` with `maxRetries = 3` and
`currentRetry = 0` (reactor.ts line 283). -/
def initWithRetry (failsAt : ℕ → Bool) : InitRetryTrace := initRetryRun failsAt 0 3

/-- Program position of one init-retry chain, one constructor per suspension
region of the async code: waiting on the readiness gate
(`waitForServerReady`), about to run the generation check at the top of
`initWithRetry`, awaiting `syncTelemetryCore`, awaiting the backoff delay,
or finished. -/
inductive ChainPos
  | waitingReady
  | retryEntry (currentRetry : ℕ)
  | syncInFlight (currentRetry : ℕ)
  | backoffDelay (currentRetry : ℕ)
  | finished
deriving DecidableEq, Repr

/-- Joint state of the engine's generation counter and one init-retry chain
(the chain started by the first `startReactor` call): `initRetryToken` is
the engine's counter (reactor.ts line 39), `capturedToken` the value the
chain captured at start (line 270), and the two counters track hits of
`publishTelemetry` and of the malfunction handler by this chain. -/
structure ReactorSys where
  initRetryToken : ℕ
  capturedToken : ℕ
  pos : ChainPos
  publishedCount : ℕ
  escalatedCount : ℕ
deriving DecidableEq, Repr

/-- Events of the interleaved execution: `restart` is a later `startReactor`
call bumping the generation counter (reactor.ts line 269); the rest advance
the chain at its current suspension point. -/
inductive ReactorEv
  | restart
  | readyProceed
  | issueSync
  | syncSucceeds
  | syncFails
  | delayElapses
deriving DecidableEq, Repr

/-- Small-step semantics of the init-retry chain against restarts.
`readyProceed` resumes `initAfterReady` (reactor.ts lines 278-284), whose
token check aborts a superseded chain; `issueSync` runs the check at the top
of `initWithRetry` (line 364) and, if it passes, awaits `syncTelemetryCore`;
`syncSucceeds` is `syncTelemetryCore` resolving, which publishes with no
further token check (lines 468-478); `syncFails` is the catch block, whose
token re-check (line 379) aborts a superseded chain, else schedules the next
retry while budget remains (`currentRetry < 3`, line 383) and otherwise
hands the error to the malfunction handler; `delayElapses` resumes the
recursive `initWithRetry` call after the backoff delay. Events that do not
match the current position do nothing. -/
def reactorStep (s : ReactorSys) : ReactorEv → ReactorSys
  | ReactorEv.restart => { s with initRetryToken := s.initRetryToken + 1 }
  | ReactorEv.readyProceed =>
      match s.pos with
      | ChainPos.waitingReady =>
          if s.capturedToken = s.initRetryToken then { s with pos := ChainPos.retryEntry 0 }
          else { s with pos := ChainPos.finished }
      | _ => s
  | ReactorEv.issueSync =>
      match s.pos with
      | ChainPos.retryEntry k =>
          if s.capturedToken = s.initRetryToken then { s with pos := ChainPos.syncInFlight k }
          else { s with pos := ChainPos.finished }
      | _ => s
  | ReactorEv.syncSucceeds =>
      match s.pos with
      | ChainPos.syncInFlight _ =>
          { s with pos := ChainPos.finished, publishedCount := s.publishedCount + 1 }
      | _ => s
  | ReactorEv.syncFails =>
      match s.pos with
      | ChainPos.syncInFlight k =>
          if s.capturedToken = s.initRetryToken then
            if k < 3 then { s with pos := ChainPos.backoffDelay k }
            else { s with pos := ChainPos.finished, escalatedCount := s.escalatedCount + 1 }
          else { s with pos := ChainPos.finished }
      | _ => s
  | ReactorEv.delayElapses =>
      match s.pos with
      | ChainPos.backoffDelay k => { s with pos := ChainPos.retryEntry (k + 1) }
      | _ => s

/-- Run of the machine over a list of events. -/
def reactorRun (s : ReactorSys) : List ReactorEv → ReactorSys
  | [] => s
  | e :: es => reactorRun (reactorStep s e) es

/-- State right after the first `startReactor` call: the counter was bumped
to 1, the chain captured it and entered the readiness gate. -/
def firstStartState : ReactorSys :=
  { initRetryToken := 1, capturedToken := 1, pos := ChainPos.waitingReady
    publishedCount := 0, escalatedCount := 0 }

/-- `TIMING.MAX_CONSECUTIVE_RETRY` (src/shared/constants.ts line 16). -/
def MAX_CONSECUTIVE_RETRY : ℕ := 5

/-- Reaction of the controller to a reactor malfunction. -/
inductive MalfunctionAction
  | rescan
  | surfaceError
deriving DecidableEq, Repr

/-- Message sniffing of the onMalfunction handler
(telemetry_controller.ts lines 115-117): the error counts as a connection
issue when its message contains `ECONNREFUSED`, `Signal Lost` or
`Signal Corrupted`. -/
def isConnectionLevel (e : SyncError) : Bool :=
  containsStr (syncErrorMessage e) "ECONNREFUSED" ||
  containsStr (syncErrorMessage e) "Signal Lost" ||
  containsStr (syncErrorMessage e) "Signal Corrupted"

/-- Bookkeeping of one pass through the failure path of `syncTelemetry`
(reactor.ts lines 444-464) followed by the controller's onMalfunction
handler (telemetry_controller.ts lines 110-144). -/
structure FailureHandling where
  consecutiveFailures : ℕ
  action : MalfunctionAction
  warnedInitialSyncFailed : Bool
deriving DecidableEq, Repr

/-- Composition of the periodic-sync failure path with the malfunction
handler. The engine's has-successful-sync flag gates only the internal
`[Telemetry] Initial sync failed` log line (reactor.ts line 457-459); the
handler is invoked unconditionally (line 460-462). The handler counts
consecutive connection-level failures, silently re-scans while the count
stays within `MAX_CONSECUTIVE_RETRY`, and surfaces the error to the user
(status-bar error plus notification) beyond that, or immediately for a
non-connection-level error. -/
def handlePeriodicSyncError (hasSuccessfulSync : Bool) (consecutiveFailures : ℕ)
    (e : SyncError) : FailureHandling :=
  let warned := (hasSuccessfulSync = false) ∧ isServerError e = false
  if isConnectionLevel e then
    let cf := consecutiveFailures + 1
    if cf ≤ MAX_CONSECUTIVE_RETRY then
      { consecutiveFailures := cf, action := MalfunctionAction.rescan
        warnedInitialSyncFailed := decide warned }
    else
      { consecutiveFailures := cf, action := MalfunctionAction.surfaceError
        warnedInitialSyncFailed := decide warned }
  else
    { consecutiveFailures := consecutiveFailures, action := MalfunctionAction.surfaceError
      warnedInitialSyncFailed := decide warned }

/-- Credentials parsed from one candidate process
(`ProcessInfo`, src/shared/types.ts lines 178-183). -/
structure ProcessCandidate where
  pid : ℕ
  extensionPort : ℕ
  csrfToken : String
deriving DecidableEq, Repr

/-- Result of a successful discovery
(`EnvironmentScanResult`, src/shared/types.ts lines 161-166). -/
structure EnvironmentScanResult where
  extensionPort : ℕ
  connectPort : ℕ
  csrfToken : String
deriving DecidableEq, Repr

/-- Verification-related diagnostics fields written by `verifyAndConnect`
(`ScanDiagnostics.ports / verified_port / verification_success`). -/
structure VerifyDiagnostics where
  ports : List ℕ
  verifiedPort : Option ℕ
  verificationSuccess : Bool
deriving DecidableEq, Repr

/-- `ProcessHunter.verifyConnection` (hunter.ts lines 318-325): probe the
ports in list order and return the first that pings successfully. -/
def verifyConnection (ping : ℕ → Bool) (ports : List ℕ) : Option ℕ :=
  ports.find? ping

/-- `ProcessHunter.verifyAndConnect` (hunter.ts lines 210-282). `ping p`
abstracts `pingPort p token` (a loopback probe counting
{200,400,401,403} as reachable and 404 as not); `listedPorts` is the result
of `identifyPorts` for the candidate's pid. With an embedded port, ping it
first; on failure probe the listed ports in order and fall back, unverified,
to the first listed port when none verifies; with no listed ports keep the
embedded port, unverified. Without an embedded port, probe the listed ports
the same way and give up (`null`) when there are none. -/
def verifyAndConnect (ping : ℕ → Bool) (listedPorts : List ℕ) (info : ProcessCandidate) :
    Option EnvironmentScanResult × VerifyDiagnostics :=
  if 0 < info.extensionPort then
    let preferred := info.extensionPort
    if ping preferred then
      (some { extensionPort := info.extensionPort, connectPort := preferred
              csrfToken := info.csrfToken },
       { ports := [preferred], verifiedPort := some preferred, verificationSuccess := true })
    else
      let diagPorts := if listedPorts.isEmpty then [preferred] else listedPorts
      if listedPorts.isEmpty then
        (some { extensionPort := info.extensionPort, connectPort := preferred
                csrfToken := info.csrfToken },
         { ports := diagPorts, verifiedPort := none, verificationSuccess := false })
      else
        match verifyConnection ping listedPorts with
        | some valid =>
            (some { extensionPort := info.extensionPort, connectPort := valid
                    csrfToken := info.csrfToken },
             { ports := diagPorts, verifiedPort := some valid, verificationSuccess := true })
        | none =>
            (some { extensionPort := info.extensionPort, connectPort := listedPorts.headD 0
                    csrfToken := info.csrfToken },
             { ports := diagPorts, verifiedPort := none, verificationSuccess := false })
  else
    if listedPorts.isEmpty then
      (none, { ports := listedPorts, verifiedPort := none, verificationSuccess := false })
    else
      match verifyConnection ping listedPorts with
      | some valid =>
          (some { extensionPort := info.extensionPort, connectPort := valid
                  csrfToken := info.csrfToken },
           { ports := listedPorts, verifiedPort := some valid, verificationSuccess := true })
      | none =>
          (some { extensionPort := info.extensionPort, connectPort := listedPorts.headD 0
                  csrfToken := info.csrfToken },
           { ports := listedPorts, verifiedPort := none, verificationSuccess := false })

/-- De-duplicating collection of parsed port numbers in first-seen order
(the `if (!ports.includes(port)) ports.push(port)` loops of
`parse_listening_ports`, strategies.ts). -/
def collectUniquePorts (found : List ℕ) : List ℕ :=
  found.foldl (fun ps p => if ps.contains p then ps else ps ++ [p]) []

/-- Tail of every `parse_listening_ports` variant (strategies.ts lines 162
and 302): de-duplicate the extracted port numbers and sort them
ascending (`ports.sort((a, b) => a - b)`). -/
def parseListeningPorts (found : List ℕ) : List ℕ :=
  sortByLe (fun a b => decide (a ≤ b)) (collectUniquePorts found)

/-- Regex-extractable content of one candidate's command line:
whether `is_antigravity_process` accepts it (the `--app_data_dir
antigravity` flag or an antigravity install-path segment), the
`--extension_server_port` value if the port regex matches, and the
`--csrf_token` value if the token regex matches (strategies.ts lines 26-35,
83-84, 122-123, 209-210). -/
structure CommandLineFacts where
  isAntigravity : Bool
  extensionPort : Option ℕ
  csrfToken : Option String
deriving DecidableEq, Repr

/-- One block of WMIC `/format:list` output: the `ProcessId=` value and the
`CommandLine=` content when the respective line is present
(strategies.ts lines 104-116). -/
structure WmicBlock where
  pid : Option ℕ
  commandLine : Option CommandLineFacts
deriving DecidableEq, Repr

/-- Test for a block that carries everything the parser requires: a pid, a
command line accepted as an Antigravity process, and an extractable token. -/
def wmicWellFormed (b : WmicBlock) : Bool :=
  b.pid.isSome &&
    (match b.commandLine with
     | some c => c.isAntigravity && c.csrfToken.isSome
     | none => false)

/-- Candidate collection of the WMIC branch of
`WindowsStrategy.parse_process_info` (strategies.ts lines 104-134): blocks
missing pid or command line are skipped, non-Antigravity command lines are
skipped, a missing token drops the block, and a missing port value is
recorded as 0. -/
def wmicCandidates : List WmicBlock → List ProcessCandidate
  | [] => []
  | b :: rest =>
      match b.pid, b.commandLine with
      | some pid, some c =>
          if c.isAntigravity then
            match c.csrfToken with
            | some tok =>
                { pid := pid, extensionPort := c.extensionPort.getD 0, csrfToken := tok } ::
                  wmicCandidates rest
            | none => wmicCandidates rest
          else wmicCandidates rest
      | _, _ => wmicCandidates rest

/-- WMIC branch result (strategies.ts lines 136-142): the first collected
candidate, or `null` when none was collected. -/
def windowsParseWmic (blocks : List WmicBlock) : Option ProcessCandidate :=
  (wmicCandidates blocks).head?

/-- One entry of the PowerShell JSON output
(`ProcessId` / `CommandLine`, strategies.ts lines 49-76). -/
structure JsonProc where
  processId : Option ℕ
  commandLine : Option CommandLineFacts
deriving DecidableEq, Repr

/-- JSON branch of `WindowsStrategy.parse_process_info` (strategies.ts lines
47-99): filter to Antigravity processes, keep only the FIRST one, and give
up (`null`) when that very first process misses a pid or a token — later
processes are never considered. -/
def windowsParseJson (procs : List JsonProc) : Option ProcessCandidate :=
  match procs.filter (fun p =>
      match p.commandLine with
      | some c => c.isAntigravity
      | none => false) with
  | [] => none
  | p :: _ =>
      match p.processId, p.commandLine with
      | some pid, some c =>
          match c.csrfToken with
          | some tok => some { pid := pid, extensionPort := c.extensionPort.getD 0, csrfToken := tok }
          | none => none
      | _, _ => none

/-- One line of `pgrep -fl` output: whether it contains the
`--extension_server_port` flag, its leading pid, and its command-line
content (strategies.ts lines 195-232). -/
structure UnixLine where
  hasExtensionPortFlag : Bool
  pid : ℕ
  facts : CommandLineFacts
deriving DecidableEq, Repr

/-- `UnixStrategy.parse_process_info` (strategies.ts lines 195-232): scan
the lines for the port flag; a matching line without an extractable token is
skipped (`continue`), the first matching line with a token is returned, a
missing port value is recorded as 0. -/
def unixParse : List UnixLine → Option ProcessCandidate
  | [] => none
  | l :: rest =>
      if l.hasExtensionPortFlag then
        match l.facts.csrfToken with
        | some tok =>
            some { pid := l.pid, extensionPort := l.facts.extensionPort.getD 0, csrfToken := tok }
        | none => unixParse rest
      else unixParse rest

/-- Number of candidates a parse result delivers to the caller. -/
def candidateCount (o : Option ProcessCandidate) : ℕ :=
  match o with
  | some _ => 1
  | none => 0

/-- Attempt budget of `initWithRetry`: at most `remaining + 1` sync attempts
run from retry index `k` with `remaining` retries left. -/
lemma initRetryRun_attempts_le (f : ℕ → Bool) :
    ∀ r k, (initRetryRun f k r).syncAttempts ≤ r + 1 := by
  intro r
  induction r with
  | zero =>
      intro k
      unfold initRetryRun
      split <;> simp
  | succ n ih =>
      intro k
      unfold initRetryRun
      split
      · simpa using Nat.succ_le_succ (ih (k + 1))
      · simp

/-- Sample configuration used to instantiate universally quantified
theorems on concrete inputs. -/
def sampleConfig : CockpitConfig :=
  { visibleModels := [], groupingEnabled := true, groupMappings := []
    groupingCustomNames := [] }

/-- Sample network environment that never answers. -/
def sampleDeadEnv : ℕ → NetResponse := fun _ => NetResponse.timeout

/-- Engine state of a reactor that was never engaged. -/
def unengagedState : EngineState :=
  { port := 0, lastRawResponse := none, lastSnapshot := none, hasSuccessfulSync := false }

/-- C5 (amended): the first sync after connecting is retried under a bounded
backoff of at most 3 retries (4 sync attempts in total); the delays grow
linearly as 2s, 4s, 6s (`2000 * (k + 1)`), not by doubling; after the last
retry fails the error is passed to the malfunction handler. -/
theorem initRetry_bounded_linear_backoff :
    (∀ failsAt : ℕ → Bool, (initWithRetry failsAt).syncAttempts ≤ 4) ∧
    initWithRetry (fun _ => true) =
      { syncAttempts := 4, delays := [2000, 4000, 6000], escalated := true
        succeeded := false } ∧
    (∀ k, initRetryDelayMs k = 2000 * (k + 1)) := by
  refine ⟨fun f => ?_, by decide, fun k => rfl⟩
  simpa using initRetryRun_attempts_le f 3 0

/-- C5 counterexample: with every attempt failing, the actual backoff delays
are 2s, 4s, 6s; a doubling schedule would give 2s, 4s, 8s, and the third
delay is 6000 ms, not twice the second. -/
theorem initRetry_delays_not_doubling_cex :
    (initWithRetry (fun _ => true)).delays = [2000, 4000, 6000] ∧
    (initWithRetry (fun _ => true)).delays.getD 2 0 ≠
      2 * (initWithRetry (fun _ => true)).delays.getD 1 0 := by
  decide

/-- C10: with the reactor never engaged (`port = 0`), the sync core — the
common path of the periodic sync, the init sync and a cache-less
`reprocess()` — rejects with the typed not-ready `AntigravityError` before
any network request is issued, publishes nothing and leaves the cached
state untouched; a `reprocess()` with neither a cached raw response nor a
cached snapshot takes exactly that path. -/
theorem unengaged_sync_rejects_typed_error
    (cfg : CockpitConfig) (now : ℤ) (env : ℕ → NetResponse) (st : EngineState)
    (hh : Bool) (hport : st.port = 0) :
    (syncTelemetryCore cfg now env st).thrownError = some SyncError.notReady ∧
    (syncTelemetryCore cfg now env st).requests = [] ∧
    (syncTelemetryCore cfg now env st).state = st ∧
    (syncTelemetryCore cfg now env st).published = [] ∧
    (st.lastRawResponse = none → st.lastSnapshot = none →
      reprocess cfg now env hh st = syncTelemetryCore cfg now env st) ∧
    isServerError SyncError.notReady = true ∧
    syncErrorMessage SyncError.notReady =
      "Antigravity Error: System not ready (Reactor not engaged)" := by
  have hcore : syncTelemetryCore cfg now env st =
      { thrownError := some SyncError.notReady, state := st, requests := []
        published := [] } := by
    unfold syncTelemetryCore fetchLocalTelemetry transmit
    simp [hport, isNotFoundError]
  refine ⟨by rw [hcore], by rw [hcore], by rw [hcore], by rw [hcore], ?_, rfl, rfl⟩
  intro hraw hsnap
  unfold reprocess
  rw [hraw, hsnap]

/-- C10 witness: the unengaged sample state satisfies the hypotheses and the
conclusion of the theorem. -/
theorem unengaged_sync_rejects_typed_error_witness :
    (syncTelemetryCore sampleConfig 0 sampleDeadEnv unengagedState).thrownError =
      some SyncError.notReady ∧
    (syncTelemetryCore sampleConfig 0 sampleDeadEnv unengagedState).requests = [] ∧
    (syncTelemetryCore sampleConfig 0 sampleDeadEnv unengagedState).state = unengagedState ∧
    (syncTelemetryCore sampleConfig 0 sampleDeadEnv unengagedState).published = [] ∧
    (unengagedState.lastRawResponse = none → unengagedState.lastSnapshot = none →
      reprocess sampleConfig 0 sampleDeadEnv true unengagedState =
        syncTelemetryCore sampleConfig 0 sampleDeadEnv unengagedState) ∧
    isServerError SyncError.notReady = true ∧
    syncErrorMessage SyncError.notReady =
      "Antigravity Error: System not ready (Reactor not engaged)" :=
  unengaged_sync_rejects_typed_error sampleConfig 0 sampleDeadEnv unengagedState true rfl

/-- Every candidate collected from WMIC blocks originates in a block whose
command line carried an extractable token, and its port is the extracted
port or 0 when the port regex found nothing. -/
lemma mem_wmicCandidates (blocks : List WmicBlock) (c : ProcessCandidate)
    (hc : c ∈ wmicCandidates blocks) :
    ∃ b ∈ blocks, ∃ facts, b.commandLine = some facts ∧
      facts.csrfToken = some c.csrfToken ∧ c.extensionPort = facts.extensionPort.getD 0 := by
  induction blocks with
  | nil => simp [wmicCandidates] at hc
  | cons b rest ih =>
      rcases hpid : b.pid with _ | pid <;> rcases hcl : b.commandLine with _ | facts <;>
        simp only [wmicCandidates, hpid, hcl] at hc
      · rcases ih hc with ⟨b', hb', h⟩
        exact ⟨b', List.mem_cons_of_mem _ hb', h⟩
      · rcases ih hc with ⟨b', hb', h⟩
        exact ⟨b', List.mem_cons_of_mem _ hb', h⟩
      · rcases ih hc with ⟨b', hb', h⟩
        exact ⟨b', List.mem_cons_of_mem _ hb', h⟩
      · by_cases hag : facts.isAntigravity = true
        · rcases htok : facts.csrfToken with _ | tok <;>
            simp only [hag, htok, if_true, if_pos] at hc
          · rcases ih hc with ⟨b', hb', h⟩
            exact ⟨b', List.mem_cons_of_mem _ hb', h⟩
          · rcases List.mem_cons.mp hc with heq | hmem
            · subst heq
              exact ⟨b, List.mem_cons_self _ _, facts, hcl, htok, rfl⟩
            · rcases ih hmem with ⟨b', hb', h⟩
              exact ⟨b', List.mem_cons_of_mem _ hb', h⟩
        · rw [if_neg hag] at hc
          rcases ih hc with ⟨b', hb', h⟩
          exact ⟨b', List.mem_cons_of_mem _ hb', h⟩

/-- A well-formed WMIC block guarantees the candidate list is non-empty. -/
lemma wmicCandidates_ne_nil (blocks : List WmicBlock) (b : WmicBlock)
    (hb : b ∈ blocks) (hwf : wmicWellFormed b = true) :
    wmicCandidates blocks ≠ [] := by
  induction blocks with
  | nil => simp at hb
  | cons b0 rest ih =>
      rcases List.mem_cons.mp hb with heq | hmem
      · subst heq
        rcases hpid : b.pid with _ | pid
        · rw [wmicWellFormed, hpid] at hwf
          simp at hwf
        · rcases hcl : b.commandLine with _ | facts
          · rw [wmicWellFormed, hcl] at hwf
            simp at hwf
          · rw [wmicWellFormed, hpid, hcl] at hwf
            simp only [Bool.and_eq_true, Option.isSome_some] at hwf
            rcases hwf with ⟨-, hag, htoks⟩
            rcases htok : facts.csrfToken with _ | tok
            · rw [htok] at htoks
              simp at htoks
            · simp only [wmicCandidates, hpid, hcl, hag, if_true, htok]
              intro h
              cases h
      · have hne := ih hmem
        rcases hpid : b0.pid with _ | pid <;> rcases hcl : b0.commandLine with _ | facts <;>
          simp only [wmicCandidates, hpid, hcl]
        · exact hne
        · exact hne
        · exact hne
        · by_cases hag : facts.isAntigravity = true
          · rcases htok : facts.csrfToken with _ | tok <;> simp only [hag, htok, if_true]
            · exact hne
            · intro h
              cases h
          · rw [if_neg hag]
            exact hne

/-- Every candidate returned by the Unix parser originates in a line whose
token regex matched, with the port defaulted to 0 when absent. -/
lemma unixParse_sound (lines : List UnixLine) (c : ProcessCandidate)
    (hc : unixParse lines = some c) :
    ∃ l ∈ lines, l.facts.csrfToken = some c.csrfToken ∧
      c.extensionPort = l.facts.extensionPort.getD 0 := by
  induction lines with
  | nil => simp [unixParse] at hc
  | cons l rest ih =>
      by_cases hflag : l.hasExtensionPortFlag = true
      · rcases htok : l.facts.csrfToken with _ | tok <;>
          simp only [unixParse, hflag, htok, if_pos] at hc
        · rcases ih hc with ⟨l', hl', h⟩
          exact ⟨l', List.mem_cons_of_mem _ hl', h⟩
        · cases hc
          exact ⟨l, List.mem_cons_self _ _, htok, rfl⟩
      · simp only [unixParse, if_neg hflag] at hc
        rcases ih hc with ⟨l', hl', h⟩
        exact ⟨l', List.mem_cons_of_mem _ hl', h⟩

/-- A line with the port flag and an extractable token guarantees the Unix
parser returns a candidate. -/
lemma unixParse_isSome (lines : List UnixLine) (l : UnixLine) (hl : l ∈ lines)
    (hflag : l.hasExtensionPortFlag = true) (htok : l.facts.csrfToken.isSome = true) :
    (unixParse lines).isSome = true := by
  induction lines with
  | nil => simp at hl
  | cons l0 rest ih =>
      rcases List.mem_cons.mp hl with heq | hmem
      · subst heq
        rcases htk : l.facts.csrfToken with _ | tok
        · rw [htk] at htok
          simp at htok
        · simp [unixParse, hflag, htk]
      · by_cases hflag0 : l0.hasExtensionPortFlag = true
        · rcases htk : l0.facts.csrfToken with _ | tok
          · simp only [unixParse, hflag0, htk, if_pos]
            exact ih hmem
          · simp [unixParse, hflag0, htk]
        · simp only [unixParse, if_neg hflag0]
          exact ih hmem

/-- Well-formed WMIC block with an embedded port value. -/
def wfBlockA : WmicBlock :=
  { pid := some 11
    commandLine := some { isAntigravity := true, extensionPort := some 4001
                          csrfToken := some "tok-a" } }

/-- Well-formed WMIC block whose command line carries no port value. -/
def wfBlockB : WmicBlock :=
  { pid := some 22
    commandLine := some { isAntigravity := true, extensionPort := none
                          csrfToken := some "tok-b" } }

/-- Sample `pgrep` line with a token and no port value. -/
def wfUnixLine : UnixLine :=
  { hasExtensionPortFlag := true, pid := 33
    facts := { isAntigravity := true, extensionPort := none, csrfToken := some "tok-u" } }

/-- C9 (amended): the platform parsers return at most one candidate — the
first acceptable one — and never more. A well-formed block (pid, Antigravity
command line, extractable token) guarantees the WMIC parser returns a
candidate, and every candidate either parser returns stems from a command
line with an extractable token, with a missing port value recorded as 0; a
line with the port flag and a token guarantees the Unix parser returns a
candidate. -/
theorem parse_process_info_token_and_port
    (blocks : List WmicBlock) (lines : List UnixLine) (b : WmicBlock) (l : UnixLine)
    (c c' : ProcessCandidate) :
    (b ∈ blocks → wmicWellFormed b = true → (windowsParseWmic blocks).isSome = true) ∧
    (windowsParseWmic blocks = some c →
      ∃ b' ∈ blocks, ∃ facts, b'.commandLine = some facts ∧
        facts.csrfToken = some c.csrfToken ∧ c.extensionPort = facts.extensionPort.getD 0) ∧
    (l ∈ lines → l.hasExtensionPortFlag = true → l.facts.csrfToken.isSome = true →
      (unixParse lines).isSome = true) ∧
    (unixParse lines = some c' →
      ∃ l' ∈ lines, l'.facts.csrfToken = some c'.csrfToken ∧
        c'.extensionPort = l'.facts.extensionPort.getD 0) ∧
    candidateCount (windowsParseWmic blocks) ≤ 1 ∧
    candidateCount (unixParse lines) ≤ 1 := by
  refine ⟨?_, ?_, ?_, ?_, ?_, ?_⟩
  · intro hb hwf
    have hne := wmicCandidates_ne_nil blocks b hb hwf
    unfold windowsParseWmic
    cases hcand : wmicCandidates blocks
    · exact absurd hcand hne
    · simp
  · intro hc
    have hmem : c ∈ wmicCandidates blocks := by
      unfold windowsParseWmic at hc
      cases hcand : wmicCandidates blocks
      · rw [hcand] at hc
        cases hc
      · rw [hcand] at hc
        simp only [List.head?] at hc
        cases hc
        exact List.mem_cons_self _ _
    exact mem_wmicCandidates blocks c hmem
  · exact fun hl hflag htok => unixParse_isSome lines l hl hflag htok
  · exact fun hc => unixParse_sound lines c' hc
  · cases windowsParseWmic blocks <;> simp [candidateCount]
  · cases unixParse lines <;> simp [candidateCount]

/-- C9 witness: instantiation of the theorem on a two-block listing and a
one-line Unix listing. -/
theorem parse_process_info_token_and_port_witness :
    ((windowsParseWmic [wfBlockA, wfBlockB]).isSome = true) ∧
    (∃ b' ∈ [wfBlockA, wfBlockB], ∃ facts, b'.commandLine = some facts ∧
      facts.csrfToken = some "tok-a" ∧ (4001 : ℕ) = facts.extensionPort.getD 0) ∧
    ((unixParse [wfUnixLine]).isSome = true) ∧
    (∃ l' ∈ [wfUnixLine], l'.facts.csrfToken = some "tok-u" ∧
      (0 : ℕ) = l'.facts.extensionPort.getD 0) := by
  have h := parse_process_info_token_and_port [wfBlockA, wfBlockB] [wfUnixLine]
    wfBlockA wfUnixLine
    { pid := 11, extensionPort := 4001, csrfToken := "tok-a" }
    { pid := 33, extensionPort := 0, csrfToken := "tok-u" }
  exact ⟨h.1 (by decide) (by decide), h.2.1 (by decide), h.2.2.1 (by decide) rfl rfl,
    h.2.2.2.1 (by decide)⟩

/-- C9 counterexample: a process listing with two well-formed candidates
(both Antigravity processes with extractable tokens) yields only one
candidate from `parse_process_info`, not at least two as the claim
demands. -/
theorem parse_process_info_two_candidates_cex :
    (([wfBlockA, wfBlockB].filter wmicWellFormed).length = 2) ∧
    candidateCount (windowsParseWmic [wfBlockA, wfBlockB]) = 1 ∧
    ¬ (2 ≤ candidateCount (windowsParseWmic [wfBlockA, wfBlockB])) := by
  decide

/-- C6 (amended): a connection-level sync failure triggers a silent
automatic re-scan while the count of consecutive failures stays within
`MAX_CONSECUTIVE_RETRY` (5) and is surfaced to the user once it exceeds
that bound — regardless of whether a prior sync in the session succeeded;
a non-connection-level failure is surfaced immediately. The engine's
has-successful-sync flag influences only the internal initial-sync warning
log, never the user-facing action. -/
theorem connection_failure_surfacing (hs : Bool) (cf : ℕ) (e : SyncError) :
    (isConnectionLevel e = true → cf + 1 ≤ MAX_CONSECUTIVE_RETRY →
      (handlePeriodicSyncError hs cf e).action = MalfunctionAction.rescan) ∧
    (isConnectionLevel e = true → MAX_CONSECUTIVE_RETRY < cf + 1 →
      (handlePeriodicSyncError hs cf e).action = MalfunctionAction.surfaceError) ∧
    (isConnectionLevel e = false →
      (handlePeriodicSyncError hs cf e).action = MalfunctionAction.surfaceError) ∧
    (handlePeriodicSyncError true cf e).action = (handlePeriodicSyncError false cf e).action := by
  refine ⟨?_, ?_, ?_, ?_⟩
  · intro hconn hle
    simp [handlePeriodicSyncError, hconn, hle]
  · intro hconn hgt
    simp [handlePeriodicSyncError, hconn, Nat.not_le_of_lt hgt]
  · intro hconn
    simp [handlePeriodicSyncError, hconn]
  · unfold handlePeriodicSyncError
    by_cases hconn : isConnectionLevel e = true
    · simp only [hconn, if_true]
      by_cases hle : cf + 1 ≤ MAX_CONSECUTIVE_RETRY <;> simp [hle]
    · simp only [Bool.not_eq_true] at hconn
      simp [hconn]

/-- C6 witness: a timed-out request (`Signal Lost`, connection-level) is
silently re-scanned on its first occurrence, and an invalid-response error
(non-connection-level) is surfaced immediately, both with the
has-successful-sync flag set. -/
theorem connection_failure_surfacing_witness :
    (handlePeriodicSyncError true 0 SyncError.timedOut).action = MalfunctionAction.rescan ∧
    (handlePeriodicSyncError true 0 SyncError.invalidResponse).action =
      MalfunctionAction.surfaceError :=
  ⟨(connection_failure_surfacing true 0 SyncError.timedOut).1 (by decide) (by decide),
   (connection_failure_surfacing true 0 SyncError.invalidResponse).2.2.1 (by decide)⟩

/-- C6 counterexample: with the has-successful-sync flag set (a sync in the
session already succeeded), the sixth consecutive connection-refused failure
of a periodic sync is still surfaced to the user. -/
theorem connection_failure_surfaced_despite_success_cex :
    (handlePeriodicSyncError true 5
      (SyncError.connectionFailed "connect ECONNREFUSED 127.0.0.1:42100")).action =
      MalfunctionAction.surfaceError ∧
    (handlePeriodicSyncError true 5
      (SyncError.connectionFailed "connect ECONNREFUSED 127.0.0.1:42100")).warnedInitialSyncFailed
      = false := by
  decide

/-- Preservation step for a superseded init chain: while the chain is not
awaiting `syncTelemetryCore`, no event lets it publish, the generation gap
persists, and it never re-enters the in-flight region. -/
lemma reactorStep_stale_preserve (s : ReactorSys) (e : ReactorEv)
    (hstale : s.capturedToken < s.initRetryToken)
    (hpos : ∀ k, s.pos ≠ ChainPos.syncInFlight k) :
    (reactorStep s e).publishedCount = s.publishedCount ∧
    (reactorStep s e).capturedToken < (reactorStep s e).initRetryToken ∧
    ∀ k, (reactorStep s e).pos ≠ ChainPos.syncInFlight k := by
  have hne : ¬ s.capturedToken = s.initRetryToken := Nat.ne_of_lt hstale
  refine ⟨?_, ?_, ?_⟩
  · cases e <;> cases hp : s.pos <;>
      first
        | exact absurd hp (hpos _)
        | simp [reactorStep, hp, hne]
  · cases e <;> cases hp : s.pos <;>
      first
        | exact absurd hp (hpos _)
        | simp [reactorStep, hp, hne, hstale, Nat.lt_succ_of_lt hstale]
  · cases e <;> cases hp : s.pos <;>
      first
        | exact absurd hp (hpos _)
        | (intro k'
           simp [reactorStep, hp, hne])

/-- C1 (amended): once the engine has been restarted (the generation counter
is strictly above the chain's captured token), an init-retry chain that is
at any of its generation-checked suspension points — waiting on the
readiness gate, about to enter `initWithRetry`, in a backoff delay, or
finished — never publishes a snapshot under any further interleaving: every
retry continuation hits a token comparison and aborts. (A sync already
in flight at the restart is the one exception, exhibited separately.) -/
theorem stale_init_chain_inert (s : ReactorSys) (evs : List ReactorEv)
    (hstale : s.capturedToken < s.initRetryToken)
    (hpos : ∀ k, s.pos ≠ ChainPos.syncInFlight k) :
    (reactorRun s evs).publishedCount = s.publishedCount := by
  induction evs generalizing s with
  | nil => rfl
  | cons e es ih =>
      rcases reactorStep_stale_preserve s e hstale hpos with ⟨hpub, hst, hps⟩
      calc (reactorRun (reactorStep s e) es).publishedCount
          = (reactorStep s e).publishedCount := ih (reactorStep s e) hst hps
        _ = s.publishedCount := hpub

/-- C1 witness: a chain parked at its retry-entry check under a bumped
generation counter stays inert over a full retry schedule. -/
theorem stale_init_chain_inert_witness :
    (reactorRun
      { initRetryToken := 2, capturedToken := 1, pos := ChainPos.retryEntry 1
        publishedCount := 0, escalatedCount := 0 }
      [ReactorEv.issueSync, ReactorEv.syncSucceeds, ReactorEv.syncFails,
       ReactorEv.delayElapses, ReactorEv.issueSync]).publishedCount = 0 :=
  stale_init_chain_inert
    { initRetryToken := 2, capturedToken := 1, pos := ChainPos.retryEntry 1
      publishedCount := 0, escalatedCount := 0 }
    [ReactorEv.issueSync, ReactorEv.syncSucceeds, ReactorEv.syncFails,
     ReactorEv.delayElapses, ReactorEv.issueSync]
    (by decide) (fun k => by simp)

/-- C1 counterexample: starting the reactor a second time while the first
chain's init sync is in flight does not prevent that chain from publishing —
the sync's success path carries no generation check, so one snapshot from
the superseded chain is published after the second start. -/
theorem inflight_sync_publishes_after_restart_cex :
    (reactorRun firstStartState
      [ReactorEv.readyProceed, ReactorEv.issueSync, ReactorEv.restart,
       ReactorEv.syncSucceeds]).publishedCount = 1 ∧
    (reactorRun firstStartState
      [ReactorEv.readyProceed, ReactorEv.issueSync, ReactorEv.restart]).capturedToken <
      (reactorRun firstStartState
        [ReactorEv.readyProceed, ReactorEv.issueSync, ReactorEv.restart]).initRetryToken := by
  decide

/-- Sample decodable user status with one quota-bearing model config. -/
def sampleUserStatus : UserStatusRaw :=
  { clientModelConfigs :=
      [{ label := "Gemini 3 Pro"
         model := some "MODEL_PLACEHOLDER_M8"
         quotaInfo := some { remainingFraction := some (Rat.mk' 9 10 (by decide) (by decide))
                             resetTimeMs := some 1700000000000 } }]
    sortLabels := [] }

/-- Sample raw response that decodes successfully. -/
def sampleRaw : ServerUserStatusResponse :=
  { userStatus := some sampleUserStatus, message := none }

/-- Engine state of an engaged reactor with an empty cache. -/
def engagedState : EngineState :=
  { port := 42100, lastRawResponse := none, lastSnapshot := none, hasSuccessfulSync := false }

/-- C4 (amended): a primary response carrying the not-found signature — a
404 status with a non-empty body, or a `404 page not found` body — is
retried exactly once against the seat-management fallback endpoint within
the same fetch call, and a fallback 200 response that decodes correctly
yields a successful snapshot; a non-404 failure of the primary (here a
socket error) is not retried against the fallback. -/
theorem primary_404_retries_fallback_once
    (cfg : CockpitConfig) (now : ℤ) (st : EngineState) (env env' : ℕ → NetResponse)
    (s0 : ℕ) (b0 : HttpBody) (raw : ServerUserStatusResponse) (us : UserStatusRaw)
    (d : String)
    (hport : ¬ st.port = 0)
    (h0 : env 0 = NetResponse.http s0 b0)
    (h404 : s0 = 404 ∨ b0 = HttpBody.notFoundText)
    (hne : b0 ≠ HttpBody.empty)
    (h1 : env 1 = NetResponse.http 200 (HttpBody.jsonBody raw))
    (hus : raw.userStatus = some us)
    (h0' : env' 0 = NetResponse.connError d) :
    (∃ built, decodeSignal cfg now raw = Except.ok built ∧
      fetchLocalTelemetry cfg now env 4 st [] =
        (Except.ok built, { st with lastRawResponse := some raw },
         [GET_USER_STATUS, GET_USER_STATUS_SEAT])) ∧
    fetchLocalTelemetry cfg now env' 4 st [] =
      (Except.error (SyncError.connectionFailed d), st, [GET_USER_STATUS]) := by
  have hdec : decodeSignal cfg now raw =
      Except.ok (buildSnapshot cfg
        (sortModels us.sortLabels (decodeModels now us.clientModelConfigs))) := by
    unfold decodeSignal
    rw [hus]
  have ht0 : transmit st.port env [] GET_USER_STATUS =
      (Except.error (SyncError.notFound GET_USER_STATUS), [GET_USER_STATUS]) := by
    rcases h404 with h404s | h404b
    · subst h404s
      simp [transmit, hport, h0, hne]
    · subst h404b
      simp [transmit, hport, h0]
  have ht1 : transmit st.port env [GET_USER_STATUS] GET_USER_STATUS_SEAT =
      (Except.ok raw, [GET_USER_STATUS, GET_USER_STATUS_SEAT]) := by
    simp [transmit, hport, h1]
  have ht0' : transmit st.port env' [] GET_USER_STATUS =
      (Except.error (SyncError.connectionFailed d), [GET_USER_STATUS]) := by
    simp [transmit, hport, h0']
  constructor
  · refine ⟨_, hdec, ?_⟩
    show fetchLocalTelemetry cfg now env (3 + 1) st [] = _
    rw [fetchLocalTelemetry, ht0]
    simp [isNotFoundError, ht1, hdec]
  · show fetchLocalTelemetry cfg now env' (3 + 1) st [] = _
    rw [fetchLocalTelemetry, ht0']
    simp [isNotFoundError]

/-- Live sample environment: every request is answered 200 with the sample
JSON body. -/
def sampleLiveEnv : ℕ → NetResponse :=
  fun _ => NetResponse.http 200 (HttpBody.jsonBody sampleRaw)

/-- Environment whose primary answer is a 404 with a `404 page not found`
body and whose second answer is the sample 200. -/
def sample404Env : ℕ → NetResponse :=
  fun n =>
    if n = 0 then NetResponse.http 404 HttpBody.notFoundText
    else NetResponse.http 200 (HttpBody.jsonBody sampleRaw)

/-- C4 witness: the theorem instantiated on the sample 404-then-200
environment and on a connection-refused environment. -/
theorem primary_404_retries_fallback_once_witness :
    (∃ built, decodeSignal sampleConfig 0 sampleRaw = Except.ok built ∧
      fetchLocalTelemetry sampleConfig 0 sample404Env 4 engagedState [] =
        (Except.ok built, { engagedState with lastRawResponse := some sampleRaw },
         [GET_USER_STATUS, GET_USER_STATUS_SEAT])) ∧
    fetchLocalTelemetry sampleConfig 0
        (fun _ => NetResponse.connError "connect ECONNREFUSED 127.0.0.1:42100") 4
        engagedState [] =
      (Except.error (SyncError.connectionFailed "connect ECONNREFUSED 127.0.0.1:42100"),
       engagedState, [GET_USER_STATUS]) :=
  primary_404_retries_fallback_once sampleConfig 0 engagedState sample404Env
    (fun _ => NetResponse.connError "connect ECONNREFUSED 127.0.0.1:42100")
    404 HttpBody.notFoundText sampleRaw sampleUserStatus
    "connect ECONNREFUSED 127.0.0.1:42100"
    (by decide) rfl (Or.inl rfl) (by decide) rfl rfl rfl

/-- C4 counterexample: a primary response with a 404 status but an empty
body is rejected as `Signal Corrupted` by the empty-body check, which runs
before the not-found check, so the fallback endpoint is never tried even
though the status is 404. -/
theorem empty_body_404_no_fallback_cex :
    fetchLocalTelemetry sampleConfig 0
        (fun n => if n = 0 then NetResponse.http 404 HttpBody.empty
                  else NetResponse.http 200 (HttpBody.jsonBody sampleRaw)) 4
        engagedState [] =
      (Except.error SyncError.emptyBody, engagedState, [GET_USER_STATUS]) ∧
    ¬ GET_USER_STATUS_SEAT ∈ [GET_USER_STATUS] := by
  constructor
  · show fetchLocalTelemetry sampleConfig 0 _ (3 + 1) engagedState [] = _
    rw [fetchLocalTelemetry]
    simp [transmit, engagedState, isNotFoundError]
  · decide

/-- C3 (amended): with a cached raw response and a registered update
handler, `reprocess()` republishes exactly the snapshot obtained by decoding
that raw response fresh under the current configuration, issuing zero
network requests; with no cached raw response but a cached snapshot (and a
handler), it republishes the cached snapshot, again with zero requests; only
with no cache at all does it fall through to a real sync, which issues
exactly one network request when the primary endpoint answers with a
decodable success. -/
theorem reprocess_cache_behavior
    (cfg : CockpitConfig) (now : ℤ) (env : ℕ → NetResponse)
    (st1 st2 st3 : EngineState) (raw raw' : ServerUserStatusResponse)
    (built : BuiltSnapshot) (snap : QuotaSnapshot) (us : UserStatusRaw) (hh : Bool)
    (h1raw : st1.lastRawResponse = some raw)
    (h1dec : decodeSignal cfg now raw = Except.ok built)
    (h2raw : st2.lastRawResponse = none) (h2snap : st2.lastSnapshot = some snap)
    (h3raw : st3.lastRawResponse = none) (h3snap : st3.lastSnapshot = none)
    (h3port : ¬ st3.port = 0)
    (henv : env 0 = NetResponse.http 200 (HttpBody.jsonBody raw'))
    (hus : raw'.userStatus = some us) :
    reprocess cfg now env true st1 =
      { thrownError := none, state := publishTelemetry st1 built.snapshot
        requests := [], published := [built.snapshot] } ∧
    reprocess cfg now env true st2 =
      { thrownError := none, state := st2, requests := [], published := [snap] } ∧
    (reprocess cfg now env hh st3).requests = [GET_USER_STATUS] := by
  refine ⟨?_, ?_, ?_⟩
  · unfold reprocess
    rw [h1raw]
    simp [h1dec]
  · unfold reprocess
    rw [h2raw, h2snap]
  · have hdec' : decodeSignal cfg now raw' =
        Except.ok (buildSnapshot cfg
          (sortModels us.sortLabels (decodeModels now us.clientModelConfigs))) := by
      unfold decodeSignal
      rw [hus]
    have ht : transmit st3.port env [] GET_USER_STATUS = (Except.ok raw', [GET_USER_STATUS]) := by
      simp [transmit, h3port, henv]
    have hfetch : fetchLocalTelemetry cfg now env 4 st3 [] =
        (Except.ok (buildSnapshot cfg
            (sortModels us.sortLabels (decodeModels now us.clientModelConfigs))),
         { st3 with lastRawResponse := some raw' }, [GET_USER_STATUS]) := by
      show fetchLocalTelemetry cfg now env (3 + 1) st3 [] = _
      rw [fetchLocalTelemetry, ht]
      simp [hdec']
    unfold reprocess
    rw [h3raw, h3snap]
    show (syncTelemetryCore cfg now env st3).requests = _
    unfold syncTelemetryCore
    rw [hfetch]

/-- Engine state holding a cached snapshot but no cached raw response (the
state `tryUseQuotaCache` leaves behind). -/
def snapshotOnlyState : EngineState :=
  { port := 42100, lastRawResponse := none
    lastSnapshot := some { models := [], allModels := [], groups := none, isConnected := true }
    hasSuccessfulSync := true }

/-- Engine state with a cached raw response. -/
def rawCachedState : EngineState :=
  { port := 42100, lastRawResponse := some sampleRaw, lastSnapshot := none
    hasSuccessfulSync := true }

/-- C3 witness: the theorem instantiated on the sample states — raw-cached,
snapshot-only, and empty-cache — against the live sample environment. -/
theorem reprocess_cache_behavior_witness :
    reprocess sampleConfig 0 sampleLiveEnv true rawCachedState =
      { thrownError := none
        state := publishTelemetry rawCachedState
          ((buildSnapshot sampleConfig
            (sortModels sampleUserStatus.sortLabels
              (decodeModels 0 sampleUserStatus.clientModelConfigs))).snapshot)
        requests := []
        published := [(buildSnapshot sampleConfig
          (sortModels sampleUserStatus.sortLabels
            (decodeModels 0 sampleUserStatus.clientModelConfigs))).snapshot] } ∧
    reprocess sampleConfig 0 sampleLiveEnv true snapshotOnlyState =
      { thrownError := none, state := snapshotOnlyState, requests := []
        published := [{ models := [], allModels := [], groups := none, isConnected := true }] } ∧
    (reprocess sampleConfig 0 sampleLiveEnv true engagedState).requests = [GET_USER_STATUS] :=
  reprocess_cache_behavior sampleConfig 0 sampleLiveEnv
    rawCachedState snapshotOnlyState engagedState sampleRaw sampleRaw
    (buildSnapshot sampleConfig
      (sortModels sampleUserStatus.sortLabels
        (decodeModels 0 sampleUserStatus.clientModelConfigs)))
    { models := [], allModels := [], groups := none, isConnected := true }
    sampleUserStatus true
    rfl rfl rfl rfl rfl rfl (by decide) rfl rfl

/-- C3 counterexample: with no cached raw response but a cached snapshot,
`reprocess()` issues zero network requests, not the exactly one fetch the
claim demands. -/
theorem reprocess_no_raw_zero_fetches_cex :
    (reprocess sampleConfig 0 sampleLiveEnv true snapshotOnlyState).requests.length = 0 ∧
    ¬ (reprocess sampleConfig 0 sampleLiveEnv true snapshotOnlyState).requests.length = 1 := by
  refine ⟨rfl, ?_⟩
  have h : (reprocess sampleConfig 0 sampleLiveEnv true snapshotOnlyState).requests.length = 0 :=
    rfl
  rw [h]
  exact Nat.zero_ne_one

/-- Folding models that all share one fingerprint into a bucket map that
already holds exactly that fingerprint's bucket only grows that bucket. -/
lemma fingerprintBuckets_const (fp : Option ℤ × ℤ) :
    ∀ (models : List ModelQuotaInfo), (∀ m ∈ models, quotaFingerprint m = fp) →
    ∀ ids, fingerprintBuckets models [(fp, ids)] =
      [(fp, ids ++ models.map (fun m => m.modelId))] := by
  intro models
  induction models with
  | nil => intro _ ids; simp [fingerprintBuckets]
  | cons m rest ih =>
      intro hall ids
      have hm : quotaFingerprint m = fp := hall m (List.mem_cons_self _ _)
      have hrest : ∀ m' ∈ rest, quotaFingerprint m' = fp :=
        fun m' hm' => hall m' (List.mem_cons_of_mem _ hm')
      simp only [fingerprintBuckets, alistPush, hm, if_pos]
      rw [ih hrest (ids ++ [m.modelId])]
      simp

/-- With more than one model, all sharing one quota fingerprint, the stats
map degenerates to a single bucket holding every model id. -/
lemma fingerprintBuckets_degenerate (m0 : ModelQuotaInfo) (rest : List ModelQuotaInfo)
    (fp : Option ℤ × ℤ) (hall : ∀ m ∈ m0 :: rest, quotaFingerprint m = fp) :
    fingerprintBuckets (m0 :: rest) [] = [(fp, (m0 :: rest).map (fun m => m.modelId))] := by
  have hm0 : quotaFingerprint m0 = fp := hall m0 (List.mem_cons_self _ _)
  have hrest : ∀ m' ∈ rest, quotaFingerprint m' = fp :=
    fun m' hm' => hall m' (List.mem_cons_of_mem _ hm')
  simp only [fingerprintBuckets, alistPush, hm0]
  rw [fingerprintBuckets_const fp rest hrest [m0.modelId]]
  simp

/-- C7 (amended): with more than one model, all sharing one identical quota
fingerprint, and no prior saved mapping, `calculateGroupMappings` discards
the degenerate signature grouping and applies the curated model-family
table (`groupBasedOnSeries`) instead; the curated grouping yields multiple
groups when the models span several family buckets, but models unmatched by
the table all land in one shared `Other` bucket. -/
theorem degenerate_grouping_uses_series_table
    (models : List ModelQuotaInfo) (fp : Option ℤ × ℤ)
    (hall : ∀ m ∈ models, quotaFingerprint m = fp)
    (hlen : 1 < models.length) :
    calculateGroupMappings models = groupBasedOnSeries models := by
  match models, hlen with
  | m0 :: rest, hlen =>
      unfold calculateGroupMappings
      rw [fingerprintBuckets_degenerate m0 rest fp hall]
      rw [if_pos ⟨rfl, hlen⟩]

/-- Gemini-family sibling of the sample model, sharing its fingerprint. -/
def geminiTwinModel : ModelQuotaInfo :=
  { label := "Gemini 3 Flash", modelId := "MODEL_PLACEHOLDER_M18"
    remainingFraction := some 1, remainingPercentage := some 100
    isExhausted := false, resetTime := 1700000000000, resetTimeValid := true }

/-- Gemini-family sample model used in grouping scenarios. -/
def geminiProModel : ModelQuotaInfo :=
  { label := "Gemini 3 Pro", modelId := "MODEL_PLACEHOLDER_M8"
    remainingFraction := some 1, remainingPercentage := some 100
    isExhausted := false, resetTime := 1700000000000, resetTimeValid := true }

/-- C7 witness: two curated-family models with one shared fingerprint fall
back to the series table, which separates them into two groups. -/
theorem degenerate_grouping_uses_series_table_witness :
    calculateGroupMappings [geminiProModel, geminiTwinModel] =
      groupBasedOnSeries [geminiProModel, geminiTwinModel] ∧
    alistGet (calculateGroupMappings [geminiProModel, geminiTwinModel]) "MODEL_PLACEHOLDER_M8" ≠
      alistGet (calculateGroupMappings [geminiProModel, geminiTwinModel]) "MODEL_PLACEHOLDER_M18" :=
  ⟨degenerate_grouping_uses_series_table [geminiProModel, geminiTwinModel]
      (some 1000000, 1700000000000) (by decide) (by decide),
   by decide⟩

/-- Unmatched sample model `model-x`. -/
def otherModelX : ModelQuotaInfo :=
  { label := "Model X", modelId := "model-x"
    remainingFraction := some 1, remainingPercentage := some 100
    isExhausted := false, resetTime := 1700000000000, resetTimeValid := true }

/-- Unmatched sample model `model-y`. -/
def otherModelY : ModelQuotaInfo :=
  { label := "Model Y", modelId := "model-y"
    remainingFraction := some 1, remainingPercentage := some 100
    isExhausted := false, resetTime := 1700000000000, resetTimeValid := true }

/-- C7 counterexample: two models sharing one fingerprint, neither matched
by the curated table, are both mapped into the single shared `Other` bucket
— the result IS a single N-member group, contradicting the claim that the
fallback never produces one. -/
theorem degenerate_grouping_single_other_group_cex :
    calculateGroupMappings [otherModelX, otherModelY] =
      [("model-x", "model-x_model-y"), ("model-y", "model-x_model-y")] ∧
    ((calculateGroupMappings [otherModelX, otherModelY]).map Prod.snd).dedup.length = 1 ∧
    1 < [otherModelX, otherModelY].length := by
  refine ⟨by decide, by decide, by decide⟩

/-- Ascending (non-strictly sorted) predicate on port lists. -/
def ascending : List ℕ → Prop
  | [] => True
  | [_] => True
  | a :: b :: t => a ≤ b ∧ ascending (b :: t)

/-- Membership through `insertLe` with the numeric comparison. -/
lemma mem_insertLe (x : ℕ) (l : List ℕ) (a : ℕ)
    (ha : a ∈ insertLe (fun a b => decide (a ≤ b)) x l) : a = x ∨ a ∈ l := by
  induction l with
  | nil =>
      simp [insertLe] at ha
      exact Or.inl ha
  | cons y ys ih =>
      by_cases hxy : x ≤ y
      · simp only [insertLe, decide_eq_true_eq, if_pos hxy] at ha
        rcases List.mem_cons.mp ha with h | h
        · exact Or.inl h
        · exact Or.inr h
      · simp only [insertLe, decide_eq_true_eq, if_neg hxy] at ha
        rcases List.mem_cons.mp ha with h | h
        · exact Or.inr (h ▸ List.mem_cons_self _ _)
        · rcases ih h with h' | h'
          · exact Or.inl h'
          · exact Or.inr (List.mem_cons_of_mem _ h')

/-- The head bound survives insertion below it. -/
lemma ascending_cons (b : ℕ) (l : List ℕ) (hb : ∀ a ∈ l, b ≤ a) (hl : ascending l) :
    ascending (b :: l) := by
  cases l with
  | nil => trivial
  | cons c t => exact ⟨hb c (List.mem_cons_self _ _), hl⟩

/-- Every element of an ascending list is at least its head bound. -/
lemma ascending_le_of_mem (b : ℕ) (l : List ℕ) (h : ascending (b :: l)) :
    ∀ a ∈ l, b ≤ a := by
  induction l generalizing b with
  | nil => intro a ha; simp at ha
  | cons c t ih =>
      intro a ha
      rcases h with ⟨hbc, ht⟩
      rcases List.mem_cons.mp ha with h' | h'
      · exact h' ▸ hbc
      · exact Nat.le_trans hbc (ih c ht a h')

/-- Insertion with the numeric comparison preserves ascending order. -/
lemma ascending_insertLe (x : ℕ) (l : List ℕ) (hl : ascending l) :
    ascending (insertLe (fun a b => decide (a ≤ b)) x l) := by
  induction l with
  | nil => trivial
  | cons y ys ih =>
      by_cases hxy : x ≤ y
      · simp only [insertLe, decide_eq_true_eq, if_pos hxy]
        refine ascending_cons x (y :: ys) ?_ hl
        intro a ha
        rcases List.mem_cons.mp ha with h | h
        · exact h ▸ hxy
        · exact Nat.le_trans hxy (ascending_le_of_mem y ys hl a h)
      · simp only [insertLe, decide_eq_true_eq, if_neg hxy]
        have hyx : y ≤ x := Nat.le_of_lt (Nat.lt_of_not_le hxy)
        have htail : ascending ys := by
          cases ys with
          | nil => trivial
          | cons c t => exact hl.2
        refine ascending_cons y _ ?_ (ih htail)
        intro a ha
        rcases mem_insertLe x ys a ha with h | h
        · exact h ▸ hyx
        · exact ascending_le_of_mem y ys hl a h

/-- The sort at the end of `parse_listening_ports` really is ascending. -/
lemma ascending_sortByLe (l : List ℕ) :
    ascending (sortByLe (fun a b => decide (a ≤ b)) l) := by
  induction l with
  | nil => trivial
  | cons x xs ih => exact ascending_insertLe x _ ih

/-- On an ascending list, the first match of `find?` is the least match. -/
lemma find?_least (p : ℕ → Bool) (l : List ℕ) (a : ℕ)
    (hl : ascending l) (ha : l.find? p = some a) :
    ∀ b ∈ l, p b = true → a ≤ b := by
  induction l with
  | nil => simp at ha
  | cons x t ih =>
      intro b hb hpb
      by_cases hpx : p x = true
      · rw [List.find?_cons_of_pos _ hpx] at ha
        cases ha
        rcases List.mem_cons.mp hb with h | h
        · exact h ▸ Nat.le_refl _
        · exact ascending_le_of_mem a t hl b h
      · rw [List.find?_cons_of_neg _ (by simpa using hpx)] at ha
        have htail : ascending t := by
          cases t with
          | nil => trivial
          | cons c u => exact hl.2
        rcases List.mem_cons.mp hb with h | h
        · exact absurd (h ▸ hpb) hpx
        · exact ih htail ha b h hpb

/-- C8: when the port embedded in the candidate's command line fails
verification, the candidate's listening ports (de-duplicated and sorted
ascending by `parse_listening_ports`) are probed sequentially and the first
— hence least — port that verifies is returned as the connect port of the
credentials with the diagnostics marked verified; when none verifies and the
listening-port list is non-empty, a non-null result is still returned whose
connect port is the first listed port, with the diagnostics marked
unverified. -/
theorem embedded_port_failure_probes_listed_ports
    (ping : ℕ → Bool) (found : List ℕ) (info : ProcessCandidate)
    (hemb : 0 < info.extensionPort) (hfail : ping info.extensionPort = false) :
    (∀ p, verifyConnection ping (parseListeningPorts found) = some p →
      (verifyAndConnect ping (parseListeningPorts found) info).1 =
        some { extensionPort := info.extensionPort, connectPort := p
               csrfToken := info.csrfToken } ∧
      (verifyAndConnect ping (parseListeningPorts found) info).2.verifiedPort = some p ∧
      (verifyAndConnect ping (parseListeningPorts found) info).2.verificationSuccess = true ∧
      ping p = true ∧
      (∀ q ∈ parseListeningPorts found, ping q = true → p ≤ q)) ∧
    (verifyConnection ping (parseListeningPorts found) = none →
      parseListeningPorts found ≠ [] →
      (verifyAndConnect ping (parseListeningPorts found) info).1 =
        some { extensionPort := info.extensionPort
               connectPort := (parseListeningPorts found).headD 0
               csrfToken := info.csrfToken } ∧
      (verifyAndConnect ping (parseListeningPorts found) info).2.verifiedPort = none ∧
      (verifyAndConnect ping (parseListeningPorts found) info).2.verificationSuccess = false) := by
  constructor
  · intro p hp
    have hne : (parseListeningPorts found).isEmpty = false := by
      cases hports : parseListeningPorts found with
      | nil => rw [hports] at hp; simp [verifyConnection] at hp
      | cons a t => simp
    have hmem : p ∈ parseListeningPorts found ∧ ping p = true := by
      constructor
      · exact List.mem_of_find?_eq_some hp
      · exact List.find?_some hp
    refine ⟨?_, ?_, ?_, hmem.2, ?_⟩
    · simp [verifyAndConnect, hemb, hfail, hne, hp]
    · simp [verifyAndConnect, hemb, hfail, hne, hp]
    · simp [verifyAndConnect, hemb, hfail, hne, hp]
    · exact find?_least ping (parseListeningPorts found) p (ascending_sortByLe _) hp
  · intro hp hne'
    have hne : (parseListeningPorts found).isEmpty = false := by
      cases hports : parseListeningPorts found with
      | nil => exact absurd hports hne'
      | cons a t => simp
    refine ⟨?_, ?_, ?_⟩ <;> simp [verifyAndConnect, hemb, hfail, hne, hp]

/-- C8 witness: with listening sockets reported as 4007, 4005, 4005, 4001
and only port 4005 answering, the parsed list is ascending and 4005 is
returned verified; with nothing answering, 4001 (the first listed port) is
returned unverified. -/
theorem embedded_port_failure_probes_listed_ports_witness :
    (verifyAndConnect (fun p => p == 4005) (parseListeningPorts [4007, 4005, 4005, 4001])
        { pid := 7, extensionPort := 9999, csrfToken := "tok" }).1 =
      some { extensionPort := 9999, connectPort := 4005, csrfToken := "tok" } ∧
    (verifyAndConnect (fun _ => false) (parseListeningPorts [4007, 4005, 4005, 4001])
        { pid := 7, extensionPort := 9999, csrfToken := "tok" }).1 =
      some { extensionPort := 9999, connectPort := 4001, csrfToken := "tok" } ∧
    (verifyAndConnect (fun _ => false) (parseListeningPorts [4007, 4005, 4005, 4001])
        { pid := 7, extensionPort := 9999, csrfToken := "tok" }).2.verificationSuccess =
      false :=
  ⟨((embedded_port_failure_probes_listed_ports (fun p => p == 4005) [4007, 4005, 4005, 4001]
      { pid := 7, extensionPort := 9999, csrfToken := "tok" } (by decide) (by decide)).1
      4005 (by decide)).1,
   ((embedded_port_failure_probes_listed_ports (fun _ => false) [4007, 4005, 4005, 4001]
      { pid := 7, extensionPort := 9999, csrfToken := "tok" } (by decide) (by decide)).2
      (by decide) (by decide)).1,
   ((embedded_port_failure_probes_listed_ports (fun _ => false) [4007, 4005, 4005, 4001]
      { pid := 7, extensionPort := 9999, csrfToken := "tok" } (by decide) (by decide)).2
      (by decide) (by decide)).2.2⟩

/-- C2 (amended): assembling a snapshot with grouping enabled and a saved
mapping that places three models in one group — two sharing quota signature
A and the third carrying a different signature B — evicts the B-member into
its own new singleton group keyed by its model id, keeps the two A-members
together in the original group, and hands the persisted mapping minus the
evicted id to the asynchronous mapping update (whose persistence failure is
only logged); provided the models' ids are pairwise distinct and the saved
group id is neither empty nor equal to the evicted member's model id. -/
theorem group_majority_eviction
    (m1 m2 m3 : ModelQuotaInfo) (g : String)
    (h12 : quotaSignature m1 = quotaSignature m2)
    (h3 : quotaSignature m3 ≠ quotaSignature m1)
    (hid12 : m1.modelId ≠ m2.modelId)
    (hid13 : m1.modelId ≠ m3.modelId)
    (hid23 : m2.modelId ≠ m3.modelId)
    (hg3 : g ≠ m3.modelId)
    (hgne : g ≠ "") :
    resolveGroups [(m1.modelId, g), (m2.modelId, g), (m3.modelId, g)] [m1, m2, m3] =
      { groupMap := [(g, [m1, m2]), (m3.modelId, [m3])]
        updatedMappings := some [(m1.modelId, g), (m2.modelId, g)] } := by
  have hsig21 : quotaSignature m2 = quotaSignature m1 := h12.symm
  have h13 : quotaSignature m1 ≠ quotaSignature m3 := fun h => h3 h.symm
  have hgm : assignSavedGroups [(m1.modelId, g), (m2.modelId, g), (m3.modelId, g)]
      [m1, m2, m3] [] = [(g, [m1, m2, m3])] := by
    simp [assignSavedGroups, alistGet, alistPush, hid12, hid13, hid23, hgne]
  have hcount : countSignatures [m1, m2, m3] [] =
      [(quotaSignature m1, 2), (quotaSignature m3, 1)] := by
    simp [countSignatures, alistGet, alistSet, hsig21, h13]
  have hmaj : majoritySignature [m1, m2, m3] = some (quotaSignature m1) := by
    rw [majoritySignature, hcount]
    simp [majorityScan]
  have hrem : groupRemovals [(g, [m1, m2, m3])] = [m3.modelId] := by
    simp [groupRemovals, hmaj, hsig21, h3]
  have hex : extractModel m3.modelId [m1, m2, m3] = some (m3, [m1, m2]) := by
    simp [extractModel, hid13, hid23]
  have hsplice : spliceModel m3.modelId [(g, [m1, m2, m3])] = (some m3, [(g, [m1, m2])]) := by
    simp [spliceModel, hex]
  have hevict : evictOne m3.modelId [(g, [m1, m2, m3])] =
      [(g, [m1, m2]), (m3.modelId, [m3])] := by
    simp [evictOne, hsplice, alistSet, hg3]
  have hnm : alistRemove [(m1.modelId, g), (m2.modelId, g), (m3.modelId, g)] m3.modelId =
      [(m1.modelId, g), (m2.modelId, g)] := by
    simp [alistRemove, hid13, hid23]
  simp [resolveGroups, hgm, hrem, evictAll, hevict, dropEmptyGroups, hnm]

/-- Sample model `model-a` at 100% with a fixed reset time (signature A). -/
def modelA : ModelQuotaInfo :=
  { label := "Model A", modelId := "model-a"
    remainingFraction := some 1, remainingPercentage := some 100
    isExhausted := false, resetTime := 1700000000000, resetTimeValid := true }

/-- Sample model `model-b` sharing signature A. -/
def modelB : ModelQuotaInfo :=
  { label := "Model B", modelId := "model-b"
    remainingFraction := some 1, remainingPercentage := some 100
    isExhausted := false, resetTime := 1700000000000, resetTimeValid := true }

/-- Sample model `model-c` at 50%, signature B. -/
def modelC : ModelQuotaInfo :=
  { label := "Model C", modelId := "model-c"
    remainingFraction := some (Rat.mk' 1 2 (by decide) (by decide))
    remainingPercentage := some 50
    isExhausted := false, resetTime := 1700000000000, resetTimeValid := true }

/-- C2 witness: the theorem instantiated on the three sample models mapped
into the saved group `grp-1`. -/
theorem group_majority_eviction_witness :
    resolveGroups [("model-a", "grp-1"), ("model-b", "grp-1"), ("model-c", "grp-1")]
        [modelA, modelB, modelC] =
      { groupMap := [("grp-1", [modelA, modelB]), ("model-c", [modelC])]
        updatedMappings := some [("model-a", "grp-1"), ("model-b", "grp-1")] } :=
  group_majority_eviction modelA modelB modelC "grp-1"
    (by decide) (by decide) (by decide) (by decide) (by decide) (by decide) (by decide)

/-- Twin of `modelC` whose model id coincides with the saved group id. -/
def modelCG : ModelQuotaInfo :=
  { label := "Model C", modelId := "grp-1"
    remainingFraction := some (Rat.mk' 1 2 (by decide) (by decide))
    remainingPercentage := some 50
    isExhausted := false, resetTime := 1700000000000, resetTimeValid := true }

/-- C2 counterexample: when the saved group id equals the evicted member's
model id, re-inserting the evicted singleton under that id overwrites the
original group, so the two A-members are dropped from the result entirely —
the output is a single bucket holding only the evicted member, not the
A-members' group plus a singleton. -/
theorem group_eviction_id_collision_cex :
    resolveGroups [("model-a", "grp-1"), ("model-b", "grp-1"), ("grp-1", "grp-1")]
        [modelA, modelB, modelCG] =
      { groupMap := [("grp-1", [modelCG])]
        updatedMappings := some [("model-a", "grp-1"), ("model-b", "grp-1")] } ∧
    ((resolveGroups [("model-a", "grp-1"), ("model-b", "grp-1"), ("grp-1", "grp-1")]
        [modelA, modelB, modelCG]).groupMap.all
      (fun p => !(p.2.contains modelA) && !(p.2.contains modelB))) = true := by
  refine ⟨by decide, by decide⟩
